import Mathlib

/-!
gPXE option configuration console (`src/hci/tui/settings_ui.c`).

A shallow embedding of the settings user interface: the packed row layout
used by `draw_setting`, the setting widget with its load / save / edit
operations, the message surface, and the `main_loop` state machine, followed
by the properties proved of them.

Conventions of the embedding.

* C strings are lists of `Char` standing for the bytes found at a pointer;
  the string proper ends before the first NUL byte (`cstr`, `strlen`).
* `unsigned int` values are naturals reduced modulo `2 ^ 32` (`U32`, `usub`);
  `int` values are integers.  The target is 32-bit, so `size_t` has the same
  width.
* A pointer to a widget is the widget itself: a function that is given the
  pointer returns the widget it leaves behind.
* The collaborators that are not part of this file (the settings store, the
  line editor, curses, `strerror`) are fields of `Env`; every call made to
  them is recorded, in order, in the trace of the `World`.
* `getkey` reads from a finite list of keys; when the list is exhausted the
  loop is blocked in `getkey`.
-/

namespace SettingsUI

/-! ## Bytes, C strings and memory primitives -/

/-- The NUL byte. -/
def NUL : Char := Char.ofNat 0

/-- The space character, used by `memset ( &row, ' ', ... )`. -/
def SPACE : Char := Char.ofNat 32

/-- The dot character, used by `memset ( row.name, '.', ... )`. -/
def DOT : Char := Char.ofNat 46

/-- Modulus of `unsigned int` arithmetic. -/
def U32 : Nat := 4294967296

/-- Subtraction `a - b` of `unsigned int` values: the difference reduced
modulo `2 ^ 32`. -/
def usub (a b : Nat) : Nat := (((a : Int) - (b : Int)) % (U32 : Int)).toNat

/-- Conversion of an `unsigned int` bit pattern to `int` (two's complement). -/
def to_int (x : Nat) : Int :=
  if x % U32 < 2147483648 then ((x % U32 : Nat) : Int) else ((x % U32 : Nat) : Int) - 4294967296

/-- The C string found at a pointer: the bytes before the first NUL. -/
def cstr (s : List Char) : List Char := s.takeWhile (fun c => decide (c ≠ NUL))

/-- The function `strlen`. -/
def strlen (s : List Char) : Nat := (cstr s).length

/-- The call `memset ( dst + off, c, n )` on a byte array. -/
def memset (dst : List Char) (off : Nat) (c : Char) (n : Nat) : List Char :=
  dst.take off ++ List.replicate n c ++ dst.drop (off + n)

/-- The call `memcpy ( dst + off, src, n )` on a byte array. -/
def memcpy (dst : List Char) (off : Nat) (src : List Char) (n : Nat) : List Char :=
  dst.take off ++ src.take n ++ dst.drop (off + n)

/-! ## Constants of the file -/

def CPAIR_NORMAL : Nat := 1
def CPAIR_SELECT : Nat := 2
def CPAIR_EDIT : Nat := 3
def CPAIR_ALERT : Nat := 4

def TITLE_ROW : Nat := 1
def SETTINGS_LIST_ROW : Nat := 3
def SETTINGS_LIST_COL : Nat := 1
def INFO_ROW : Nat := 20
def ALERT_ROW : Nat := 20
def INSTRUCTION_ROW : Nat := 22
def INSTRUCTION_PAD : List Char := "     ".toList

/-! ## `struct setting_row` (packed)

```
char start[0]; char pad1[1]; char name[15]; char pad2[1];
char value[60]; char pad3[1]; char nul;
```
-/

namespace setting_row

def sizeof_pad1 : Nat := 1
def sizeof_name : Nat := 15
def sizeof_pad2 : Nat := 1
def sizeof_value : Nat := 60
def sizeof_pad3 : Nat := 1
def sizeof_nul : Nat := 1

def offsetof_start : Nat := 0
def offsetof_pad1 : Nat := 0
def offsetof_name : Nat := offsetof_pad1 + sizeof_pad1
def offsetof_pad2 : Nat := offsetof_name + sizeof_name
def offsetof_value : Nat := offsetof_pad2 + sizeof_pad2
def offsetof_pad3 : Nat := offsetof_value + sizeof_value
def offsetof_nul : Nat := offsetof_pad3 + sizeof_pad3

/-- The value of `sizeof ( struct setting_row )`. -/
def sizeof : Nat := offsetof_nul + sizeof_nul

end setting_row

/-- The string literal used for an empty value. -/
def not_specified : List Char := "<not specified>".toList

/-- The value of `sizeof ( widget->value )`. -/
def sizeof_widget_value : Nat := 256

/-- The row construction part of `draw_setting` (lines 159-179): from the
bytes at `widget->setting->name` and the buffer `widget->value`, the bytes
of the local `struct setting_row row` and the final value of `len`. -/
def build_row (name value : List Char) : List Char × Nat :=
  -- the local `row` is uninitialised; every byte of it is overwritten here:
  -- memset ( &row, ' ', sizeof ( row ) ); row.nul = '\0';
  let row := memset (List.replicate setting_row.sizeof NUL) 0 SPACE setting_row.sizeof
  let row := row.set setting_row.offsetof_nul NUL
  -- memset ( row.name, '.', sizeof ( row.name ) );
  let row := memset row setting_row.offsetof_name DOT setting_row.sizeof_name
  let len := strlen name
  let len := if len > setting_row.sizeof_name then setting_row.sizeof_name else len
  let row := memcpy row setting_row.offsetof_name name len
  -- value = widget->value; if ( ! *value ) value = "<not specified>";
  let value := if value.headD NUL = NUL then not_specified else value
  let len := strlen value
  let len := if len > setting_row.sizeof_value then setting_row.sizeof_value else len
  let row := memcpy row setting_row.offsetof_value value len
  (row, len)

/-- The text printed by `mvprintw ( ..., "%s", row.start )`. -/
def row_text (name value : List Char) : List Char := cstr (build_row name value).1

/-- Bytes `off .. off + n - 1` of a byte array. -/
def field (row : List Char) (off n : Nat) : List Char := (row.drop off).take n

/-! ## Collaborators -/

/-- A `struct config_setting`, as far as this file reads it: the bytes at
`name`, at `description` and at `type->description`. -/
structure config_setting where
  name : List Char
  description : List Char
  type_description : List Char
  deriving DecidableEq, Inhabited

/-- Colours named in the calls of `init_pair`. -/
inductive Colour where
  | COLOR_WHITE | COLOR_BLUE | COLOR_RED | COLOR_BLACK | COLOR_CYAN
  deriving DecidableEq

/-- A call made to a collaborator.  Pointers to settings are `some index`
for `&config_settings[index]` and `none` for `NULL`; a context pointer is an
address.  `mvprintw` records the colour pair active when it is called. -/
inductive Event (β : Type) where
  | initscr
  | start_color
  | init_pair (pair : Nat) (fg bg : Colour)
  | erase
  | endwin
  | color_set (pair : Nat)
  | attron_bold
  | attroff_bold
  | mvprintw (colour row col : Nat) (text : List Char)
  | move (row col : Nat)
  | clrtoeol
  | sleep (secs : Nat)
  | getkey (key : Int)
  | show_setting (context : Nat) (setting : Option Nat) (len : Nat)
  | set_setting (context : Nat) (setting : Option Nat) (value : List Char)
  | nvo_save
  | init_editbox (buf : List Char) (len row col width : Nat)
  | draw_editbox (box : β) (buf : List Char)
  | edit_editbox (box : β) (buf : List Char) (key : Int)
  deriving DecidableEq

/-- Modelled from the spec: the collaborators of section 6, which are not
part of `settings_ui.c`.  `σ` is the state of the settings store and `β`
the state of a `struct edit_box`.

* `show_setting store context setting buf len` is the store's `read`: it
  returns the status code and the contents of `buf` afterwards, and does not
  change the store.
* `set_setting store context setting value` is the store's `write`.
* `nvo_save store` is the bulk `persist-all` on `ugly_nvo_hack`.
* `init_editbox buf len row col width` is the line editor's `init` (the
  window argument is always `NULL`), `edit_editbox box buf key` its
  `handle_key`, which may change the box and the buffer it points to and
  returns a key or zero; its `render` is the event `draw_editbox`.
* `zero_editbox` is the all-zero `struct edit_box` left by `memset`.
* `COLS` is the screen width; the key codes come from `gpxe/keys.h` and are
  pairwise distinct.
* `config_settings` is the linker table of the settings.  The table is an
  array in a 32-bit address space and `config_settings_end - config_settings`
  is a `ptrdiff_t`, so its number of elements is below `2 ^ 31`. -/
structure Env (σ β : Type) where
  config_settings : List config_setting
  COLS : Nat
  show_setting : σ → Nat → Option Nat → List Char → Nat → Int × List Char
  set_setting : σ → Nat → Option Nat → List Char → σ × Int
  nvo_save : σ → σ × Int
  strerror : Int → List Char
  init_editbox : List Char → Nat → Nat → Nat → Nat → β
  edit_editbox : β → List Char → Int → β × List Char × Int
  zero_editbox : β
  CR : Int
  LF : Int
  CTRL_C : Int
  CTRL_S : Int
  KEY_DOWN : Int
  KEY_UP : Int
  keys_distinct : [CR, LF, CTRL_C, CTRL_S, KEY_DOWN, KEY_UP].Nodup
  table_fits : config_settings.length < 2147483648

/-- The store, the active colour pair of the screen, and every collaborator
call made so far, oldest first. -/
structure World (σ β : Type) where
  store : σ
  colour : Nat
  trace : List (Event β)

variable {σ β : Type}

/-- Record one collaborator call. -/
def World.emit (w : World σ β) (e : Event β) : World σ β :=
  { w with trace := w.trace ++ [e] }

/-- The curses call `color_set ( pair, NULL )`. -/
def color_set (w : World σ β) (pair : Nat) : World σ β :=
  { w with colour := pair, trace := w.trace ++ [Event.color_set pair] }

/-- The curses call `mvprintw ( row, col, "%s", text )`. -/
def mvprintw (w : World σ β) (row col : Nat) (text : List Char) : World σ β :=
  w.emit (Event.mvprintw w.colour row col text)

/-- The value of `NUM_SETTINGS`: the table size converted to `unsigned`. -/
def NUM_SETTINGS (env : Env σ β) : Nat := env.config_settings.length % U32

/-- Dereference of a `struct config_setting *`.  A pointer outside the table
reads as a setting with empty strings. -/
def deref (env : Env σ β) (p : Option Nat) : config_setting :=
  match p with
  | some i => env.config_settings.getD i default
  | none => default

/-! ## The setting widget -/

/-- A `struct setting_widget`. -/
structure setting_widget (β : Type) where
  context : Nat
  setting : Option Nat
  row : Nat
  col : Nat
  editbox : β
  editing : Int
  value : List Char

/-- The function `load_setting` (lines 96-112). -/
def load_setting (env : Env σ β) (w : World σ β) (widget : setting_widget β) :
    World σ β × setting_widget β :=
  -- widget->editing = 0;
  let widget := { widget with editing := 0 }
  -- show_setting ( widget->context, widget->setting, widget->value, sizeof ( widget->value ) )
  let r := env.show_setting w.store widget.context widget.setting widget.value sizeof_widget_value
  let w := w.emit (Event.show_setting widget.context widget.setting sizeof_widget_value)
  let widget := { widget with value := r.2 }
  -- if ( ... != 0 ) widget->value[0] = '\0';
  let widget := if r.1 ≠ 0 then { widget with value := widget.value.set 0 NUL } else widget
  -- init_editbox ( &widget->editbox, widget->value, sizeof ( widget->value ), NULL,
  --                widget->row, widget->col + offsetof ( struct setting_row, value ),
  --                sizeof ( ( ( struct setting_row * ) NULL )->value ) );
  let col := (widget.col + setting_row.offsetof_value) % U32
  let w := w.emit (Event.init_editbox widget.value sizeof_widget_value widget.row col
    setting_row.sizeof_value)
  let box := env.init_editbox widget.value sizeof_widget_value widget.row col
    setting_row.sizeof_value
  let widget := { widget with editbox := box }
  (w, widget)

/-- The function `save_setting` (lines 119-121): the new world and the
status code of `set_setting`. -/
def save_setting (env : Env σ β) (w : World σ β) (widget : setting_widget β) :
    World σ β × Int :=
  let r := env.set_setting w.store widget.context widget.setting widget.value
  ({ w with store := r.1,
            trace := w.trace ++ [Event.set_setting widget.context widget.setting widget.value] },
   r.2)

/-- The function `init_setting` (lines 132-146).  The previous contents of
`*widget` are erased by `memset`, so they are not an argument. -/
def init_setting (env : Env σ β) (w : World σ β) (context : Nat) (setting : Option Nat)
    (row col : Nat) : World σ β × setting_widget β :=
  -- memset ( widget, 0, sizeof ( *widget ) );
  let widget : setting_widget β :=
    { context := 0, setting := none, row := 0, col := 0, editbox := env.zero_editbox,
      editing := 0, value := List.replicate sizeof_widget_value NUL }
  let widget := { widget with context := context }
  let widget := { widget with setting := setting }
  let widget := { widget with row := row }
  let widget := { widget with col := col }
  load_setting env w widget

/-- The function `draw_setting` (lines 153-186): the new world and the
widget the pointer refers to afterwards. -/
def draw_setting (env : Env σ β) (w : World σ β) (widget : setting_widget β) :
    World σ β × setting_widget β :=
  let r := build_row (deref env widget.setting).name widget.value
  -- curs_col = ( widget->col + offsetof ( typeof ( row ), value ) + len );
  let curs_col := (widget.col + setting_row.offsetof_value + r.2) % U32
  -- mvprintw ( widget->row, widget->col, "%s", row.start );
  let w := mvprintw w widget.row widget.col (cstr r.1)
  -- move ( widget->row, curs_col );
  let w := w.emit (Event.move widget.row curs_col)
  -- if ( widget->editing ) draw_editbox ( &widget->editbox );
  let w := if widget.editing ≠ 0 then w.emit (Event.draw_editbox widget.editbox widget.value)
    else w
  (w, widget)

/-- The function `edit_setting` (lines 195-198): the new world, the widget,
and the key returned by `edit_editbox`. -/
def edit_setting (env : Env σ β) (w : World σ β) (widget : setting_widget β) (key : Int) :
    World σ β × setting_widget β × Int :=
  let widget := { widget with editing := 1 }
  let r := env.edit_editbox widget.editbox widget.value key
  (w.emit (Event.edit_editbox widget.editbox widget.value key),
   { widget with editbox := r.1, value := r.2.1 },
   r.2.2)

/-- The function `init_setting_index` (lines 207-212); `index` is an
`unsigned int`. -/
def init_setting_index (env : Env σ β) (w : World σ β) (context : Nat) (index : Nat) :
    World σ β × setting_widget β :=
  init_setting env w context (some index) ((SETTINGS_LIST_ROW + index) % U32) SETTINGS_LIST_COL

/-! ## Messages and alerts -/

/-- The function `vmsg` (lines 221-227), given the text that the format and
its arguments expand to.  `vsnprintf` stores at most `COLS - 1` characters
in `buf` and returns the untruncated length; `COLS - len` is computed in
`size_t` arithmetic. -/
def vmsg (env : Env σ β) (w : World σ β) (row : Nat) (text : List Char) : World σ β :=
  let buf := text.take (env.COLS - 1)
  let len := text.length % U32
  mvprintw w row (usub (env.COLS % U32) len / 2) buf

/-- The function `msg` (lines 236-242). -/
def msg (env : Env σ β) (w : World σ β) (row : Nat) (text : List Char) : World σ β :=
  vmsg env w row text

/-- The function `clearmsg` (lines 249-252). -/
def clearmsg (w : World σ β) (row : Nat) : World σ β :=
  (w.emit (Event.move row 0)).emit Event.clrtoeol

/-- The function `valert` (lines 260-267). -/
def valert (env : Env σ β) (w : World σ β) (text : List Char) : World σ β :=
  let w := clearmsg w ALERT_ROW
  let w := color_set w CPAIR_ALERT
  let w := vmsg env w ALERT_ROW text
  let w := w.emit (Event.sleep 2)
  let w := color_set w CPAIR_NORMAL
  clearmsg w ALERT_ROW

/-- The function `alert` (lines 275-281). -/
def alert (env : Env σ β) (w : World σ β) (text : List Char) : World σ β :=
  valert env w text

/-- The function `draw_title_row` (lines 286-290). -/
def draw_title_row (env : Env σ β) (w : World σ β) : World σ β :=
  let w := w.emit Event.attron_bold
  let w := msg env w TITLE_ROW "gPXE option configuration console".toList
  w.emit Event.attroff_bold

/-- The function `draw_info_row` (lines 297-303); the text is the expansion
of `"%s (%s) - %s"`. -/
def draw_info_row (env : Env σ β) (w : World σ β) (setting : Option Nat) : World σ β :=
  let w := clearmsg w INFO_ROW
  let w := w.emit Event.attron_bold
  let w := msg env w INFO_ROW
    (cstr (deref env setting).name ++ " (".toList ++ cstr (deref env setting).type_description
      ++ ") - ".toList ++ cstr (deref env setting).description)
  w.emit Event.attroff_bold

/-- The function `draw_instruction_row` (lines 310-320). -/
def draw_instruction_row (env : Env σ β) (w : World σ β) (editing : Int) : World σ β :=
  let w := clearmsg w INSTRUCTION_ROW
  if editing ≠ 0 then
    msg env w INSTRUCTION_ROW
      ("Enter - accept changes".toList ++ INSTRUCTION_PAD ++ "Ctrl-C - discard changes".toList)
  else
    msg env w INSTRUCTION_ROW "Ctrl-S - save configuration".toList

/-! ## The main loop -/

/-- The locals of `main_loop` that live across iterations, with the world. -/
structure LoopState (σ β : Type) where
  world : World σ β
  widget : setting_widget β
  current : Nat

/-- Result of handling one key: the loop goes on, or `main_loop` returns. -/
inductive Step (σ β : Type) where
  | next (st : LoopState σ β)
  | ret (rc : Int) (st : LoopState σ β)

/-- The state carried by a step result. -/
def Step.state : Step σ β → LoopState σ β
  | Step.next st => st
  | Step.ret _ st => st

/-- Result of `main_loop` on a finite list of keys: blocked in `getkey` with
the list exhausted, or returned. -/
inductive Outcome (σ β : Type) where
  | blocked (st : LoopState σ β)
  | returned (rc : Int) (st : LoopState σ β)

/-- The state carried by an outcome. -/
def Outcome.state : Outcome σ β → LoopState σ β
  | Outcome.blocked st => st
  | Outcome.returned _ st => st

/-- The initial loop of `main_loop` (lines 333-336), run for the `n`
remaining values `i = n - 1, ..., 0` of the `int` counter. -/
def draw_all (env : Env σ β) (context : Nat) :
    Nat → World σ β × setting_widget β → World σ β × setting_widget β
  | 0, s => s
  | i + 1, s =>
    -- init_setting_index ( &widget, context, i ); draw_setting ( &widget );
    let r := init_setting_index env s.1 context (i % U32)
    draw_all env context i (draw_setting env r.1 r.2)

/-- Number of iterations of the initial loop: `i` starts at
`( int ) ( NUM_SETTINGS - 1 )` and the loop runs while `i >= 0`. -/
def draw_all_count (env : Env σ β) : Nat :=
  (to_int (usub (NUM_SETTINGS env) 1) + 1).toNat

/-- Lines 339-347: the redraw at the top of each iteration. -/
def redraw (env : Env σ β) (st : LoopState σ β) : LoopState σ β :=
  let w := draw_info_row env st.world st.widget.setting
  let w := draw_instruction_row env w st.widget.editing
  let w := color_set w (if st.widget.editing ≠ 0 then CPAIR_EDIT else CPAIR_SELECT)
  let d := draw_setting env w st.widget
  let w := color_set d.1 CPAIR_NORMAL
  { st with world := w, widget := d.2 }

/-- Lines 389-393: the focus change at the end of a browse-mode step. -/
def move_focus (env : Env σ β) (context : Nat) (st : LoopState σ β) (next : Nat) :
    LoopState σ β :=
  if next ≠ st.current then
    let d := draw_setting env st.world st.widget
    let r := init_setting_index env d.1 context next
    { world := r.1, widget := r.2, current := next }
  else st

/-- Lines 350-394: what one iteration does with the key read by `getkey`. -/
def handle_key (env : Env σ β) (context : Nat) (st : LoopState σ β) (key : Int) : Step σ β :=
  if st.widget.editing ≠ 0 then
    let r := edit_setting env st.world st.widget key
    let key := r.2.2
    if key = env.CR ∨ key = env.LF then
      let s := save_setting env r.1 r.2.1
      let w := if s.2 ≠ 0 then
          alert env s.1 (" Could not set ".toList ++ cstr (deref env r.2.1.setting).name
            ++ ": ".toList ++ cstr (env.strerror s.2) ++ " ".toList)
        else s.1
      let l := load_setting env w r.2.1
      Step.next { world := l.1, widget := l.2, current := st.current }
    else if key = env.CTRL_C then
      let l := load_setting env r.1 r.2.1
      Step.next { world := l.1, widget := l.2, current := st.current }
    else
      Step.next { world := r.1, widget := r.2.1, current := st.current }
  else
    let next := st.current
    if key = env.KEY_DOWN then
      let next := if next < usub (NUM_SETTINGS env) 1 then (next + 1) % U32 else next
      Step.next (move_focus env context st next)
    else if key = env.KEY_UP then
      let next := if next > 0 then usub next 1 else next
      Step.next (move_focus env context st next)
    else if key = env.CTRL_S then
      let s := env.nvo_save st.world.store
      let w : World σ β := { st.world with store := s.1, trace := st.world.trace ++ [Event.nvo_save] }
      let w := if s.2 ≠ 0 then
          alert env w (" Could not save options: ".toList ++ cstr (env.strerror s.2)
            ++ " ".toList)
        else w
      Step.ret s.2 { st with world := w }
    else
      let r := edit_setting env st.world st.widget key
      Step.next (move_focus env context { st with world := r.1, widget := r.2.1 } next)

/-- Lines 339-394: one iteration of the `while ( 1 )` loop, with the key
that `getkey` delivers. -/
def iteration (env : Env σ β) (context : Nat) (st : LoopState σ β) (key : Int) : Step σ β :=
  let st := redraw env st
  -- key = getkey();
  let st := { st with world := st.world.emit (Event.getkey key) }
  handle_key env context st key

/-- The `while ( 1 )` loop of `main_loop` (lines 338-395) on the keys that
`getkey` will deliver. -/
def loop (env : Env σ β) (context : Nat) : LoopState σ β → List Int → Outcome σ β
  | st, [] => Outcome.blocked (redraw env st)
  | st, key :: keys =>
    match iteration env context st key with
    | Step.next st => loop env context st keys
    | Step.ret rc st => Outcome.returned rc st

/-- Lines 324-336 of `main_loop`: the state in which the `while ( 1 )` loop
is entered.  `widget` is the uninitialised local. -/
def main_init (env : Env σ β) (context : Nat) (w : World σ β) (widget : setting_widget β) :
    LoopState σ β :=
  let w := draw_title_row env w
  let w := color_set w CPAIR_NORMAL
  let r := draw_all env context (draw_all_count env) (w, widget)
  { world := r.1, widget := r.2, current := 0 }

/-- The function `main_loop` (lines 322-397). -/
def main_loop (env : Env σ β) (context : Nat) (w : World σ β) (widget : setting_widget β)
    (keys : List Int) : Outcome σ β :=
  loop env context (main_init env context w widget) keys

/-- Lines 402-409 of `settings_ui`: the set-up of the screen. -/
def settings_ui_init (w : World σ β) : World σ β :=
  let w := w.emit Event.initscr
  let w := w.emit Event.start_color
  let w := w.emit (Event.init_pair CPAIR_NORMAL Colour.COLOR_WHITE Colour.COLOR_BLUE)
  let w := w.emit (Event.init_pair CPAIR_SELECT Colour.COLOR_WHITE Colour.COLOR_RED)
  let w := w.emit (Event.init_pair CPAIR_EDIT Colour.COLOR_BLACK Colour.COLOR_CYAN)
  let w := w.emit (Event.init_pair CPAIR_ALERT Colour.COLOR_WHITE Colour.COLOR_RED)
  let w := color_set w CPAIR_NORMAL
  w.emit Event.erase

/-- The function `settings_ui` (lines 399-416): the return value, if the
session ended within the given keys, and the world. -/
def settings_ui (env : Env σ β) (context : Nat) (w : World σ β) (widget : setting_widget β)
    (keys : List Int) : Option Int × World σ β :=
  -- rc = main_loop ( context ); endwin(); return rc;
  match main_loop env context (settings_ui_init w) widget keys with
  | Outcome.returned rc st => (some rc, st.world.emit Event.endwin)
  | Outcome.blocked st => (none, st.world)

/-! ## Reading a trace -/

/-- The event is a call to the settings store: `show_setting`, `set_setting`
or `nvo_save`. -/
def Event.is_store_call : Event β → Bool
  | Event.show_setting _ _ _ => true
  | Event.set_setting _ _ _ => true
  | Event.nvo_save => true
  | _ => false

/-- The calls to the settings store in a trace, in order. -/
def store_calls (t : List (Event β)) : List (Event β) := t.filter Event.is_store_call

/-- The event is a call to `set_setting`, the single-field write. -/
def Event.is_set_setting : Event β → Bool
  | Event.set_setting _ _ _ => true
  | _ => false

/-- Number of calls to `set_setting` in a trace. -/
def writes (t : List (Event β)) : Nat := t.countP Event.is_set_setting

/-- The event is `color_set ( CPAIR_ALERT, NULL )`, which only `valert`
calls. -/
def Event.is_alert : Event β → Bool
  | Event.color_set pair => pair == CPAIR_ALERT
  | _ => false

/-- Number of alerts raised in a trace. -/
def alerts (t : List (Event β)) : Nat := t.countP Event.is_alert

/-! ## A concrete environment

A store holding one string per setting, and a line editor that appends
printable keys to the buffer and hands every other key back. -/

/-- Three settings; the second has a name longer than the name field. -/
def demo_settings : List config_setting :=
  [⟨"ip".toList, "IP address".toList, "IPv4".toList⟩,
   ⟨"really-long-setting-name-xyz".toList, "Host name".toList, "string".toList⟩,
   ⟨"gateway".toList, "Default gateway".toList, "IPv4".toList⟩]

/-- The read of the demo store: an empty entry, or a pointer outside the
table, is a failed read. -/
def demo_show (store : List (List Char)) (p : Option Nat) (buf : List Char) :
    Int × List Char :=
  match p with
  | some i =>
    if store.getD i [] = [] then (-2, buf) else (0, store.getD i [] ++ [NUL])
  | none => (-2, buf)

/-- The write of the demo store: strings longer than eight characters are
rejected. -/
def demo_set (store : List (List Char)) (p : Option Nat) (v : List Char) :
    List (List Char) × Int :=
  match p with
  | some i => if strlen v ≤ 8 then (store.set i (cstr v), 0) else (store, -22)
  | none => (store, -2)

/-- The line editor of the demo: a printable key is appended to the string
in the buffer and consumed; any other key is returned. -/
def demo_edit (box : Nat) (buf : List Char) (key : Int) : Nat × List Char × Int :=
  if 32 ≤ key ∧ key < 127 then (box + 1, cstr buf ++ [Char.ofNat key.toNat, NUL], 0)
  else (box, buf, key)

/-- The demo environment, on a screen of 80 columns. -/
def demo_env : Env (List (List Char)) Nat where
  config_settings := demo_settings
  COLS := 80
  show_setting := fun store _ p buf _ => demo_show store p buf
  set_setting := fun store _ p v => demo_set store p v
  nvo_save := fun store => (store, if store.length = 3 then 0 else -5)
  strerror := fun _ => "Error".toList
  init_editbox := fun buf _ _ _ _ => strlen buf
  edit_editbox := demo_edit
  zero_editbox := 0
  CR := 13
  LF := 10
  CTRL_C := 3
  CTRL_S := 19
  KEY_DOWN := 322
  KEY_UP := 321
  keys_distinct := by decide
  table_fits := by decide

/-- The demo environment with an empty settings table. -/
def demo_env_empty : Env (List (List Char)) Nat :=
  { demo_env with config_settings := [], table_fits := by decide }

/-- A world whose store has a value for the first and the third setting. -/
def demo_world : World (List (List Char)) Nat :=
  ⟨["10.0.0.1".toList, [], "10.0.0.254".toList], CPAIR_NORMAL, []⟩

/-- The widget of the first setting in Browse mode. -/
def demo_widget : setting_widget Nat :=
  { context := 7, setting := some 0, row := 3, col := 1, editbox := 8, editing := 0,
    value := "10.0.0.1".toList ++ [NUL] }

/-- The widget of the first setting in Edit mode, with `9` typed. -/
def demo_widget_editing : setting_widget Nat :=
  { context := 7, setting := some 0, row := 3, col := 1, editbox := 9, editing := 1,
    value := "10.0.0.19".toList ++ [NUL] }

/-- A Browse-mode state of the loop with focus on the first setting. -/
def demo_state : LoopState (List (List Char)) Nat :=
  { world := demo_world, widget := demo_widget, current := 0 }

/-- An Edit-mode state of the loop with focus on the first setting. -/
def demo_state_editing : LoopState (List (List Char)) Nat :=
  { world := demo_world, widget := demo_widget_editing, current := 0 }

/-! ## The cases of `handle_key` -/

theorem move_focus_current (env : Env σ β) (context : Nat) (st : LoopState σ β) (next : Nat) :
    (move_focus env context st next).current = next ∨
      (move_focus env context st next).current = st.current := by
  unfold move_focus
  split
  · left; rfl
  · right; rfl

theorem redraw_current (env : Env σ β) (st : LoopState σ β) :
    (redraw env st).current = st.current := rfl

theorem keys_ne (env : Env σ β) :
    env.CR ≠ env.LF ∧ env.CR ≠ env.CTRL_C ∧ env.LF ≠ env.CTRL_C ∧
    env.KEY_DOWN ≠ env.KEY_UP ∧ env.CTRL_S ≠ env.KEY_DOWN ∧ env.CTRL_S ≠ env.KEY_UP ∧
    env.CR ≠ env.CTRL_S ∧ env.CR ≠ env.KEY_DOWN ∧ env.CR ≠ env.KEY_UP ∧
    env.LF ≠ env.CTRL_S ∧ env.LF ≠ env.KEY_DOWN ∧ env.LF ≠ env.KEY_UP ∧
    env.CTRL_C ≠ env.CTRL_S ∧ env.CTRL_C ≠ env.KEY_DOWN ∧ env.CTRL_C ≠ env.KEY_UP := by
  have hd := env.keys_distinct
  simp only [List.nodup_cons, List.mem_cons, List.mem_singleton, not_or, List.not_mem_nil,
    not_false_eq_true, List.nodup_nil, and_true] at hd
  tauto

theorem handle_key_commit (env : Env σ β) (context : Nat) (st : LoopState σ β) (key : Int)
    (he : st.widget.editing ≠ 0)
    (hk : (edit_setting env st.world st.widget key).2.2 = env.CR ∨
      (edit_setting env st.world st.widget key).2.2 = env.LF) :
    handle_key env context st key =
      Step.next
        { world := (load_setting env
            (if (save_setting env (edit_setting env st.world st.widget key).1
                  (edit_setting env st.world st.widget key).2.1).2 ≠ 0 then
              alert env (save_setting env (edit_setting env st.world st.widget key).1
                  (edit_setting env st.world st.widget key).2.1).1
                (" Could not set ".toList
                  ++ cstr (deref env (edit_setting env st.world st.widget key).2.1.setting).name
                  ++ ": ".toList
                  ++ cstr (env.strerror (save_setting env (edit_setting env st.world st.widget key).1
                      (edit_setting env st.world st.widget key).2.1).2)
                  ++ " ".toList)
            else (save_setting env (edit_setting env st.world st.widget key).1
                  (edit_setting env st.world st.widget key).2.1).1)
            (edit_setting env st.world st.widget key).2.1).1,
          widget := (load_setting env
            (if (save_setting env (edit_setting env st.world st.widget key).1
                  (edit_setting env st.world st.widget key).2.1).2 ≠ 0 then
              alert env (save_setting env (edit_setting env st.world st.widget key).1
                  (edit_setting env st.world st.widget key).2.1).1
                (" Could not set ".toList
                  ++ cstr (deref env (edit_setting env st.world st.widget key).2.1.setting).name
                  ++ ": ".toList
                  ++ cstr (env.strerror (save_setting env (edit_setting env st.world st.widget key).1
                      (edit_setting env st.world st.widget key).2.1).2)
                  ++ " ".toList)
            else (save_setting env (edit_setting env st.world st.widget key).1
                  (edit_setting env st.world st.widget key).2.1).1)
            (edit_setting env st.world st.widget key).2.1).2,
          current := st.current } := by
  simp only [handle_key]
  rw [if_pos he, if_pos hk]

theorem handle_key_cancel (env : Env σ β) (context : Nat) (st : LoopState σ β) (key : Int)
    (he : st.widget.editing ≠ 0)
    (hk : (edit_setting env st.world st.widget key).2.2 = env.CTRL_C) :
    handle_key env context st key =
      Step.next
        { world := (load_setting env (edit_setting env st.world st.widget key).1
            (edit_setting env st.world st.widget key).2.1).1,
          widget := (load_setting env (edit_setting env st.world st.widget key).1
            (edit_setting env st.world st.widget key).2.1).2,
          current := st.current } := by
  have hd := keys_ne env
  have h1 : ¬ ((edit_setting env st.world st.widget key).2.2 = env.CR ∨
      (edit_setting env st.world st.widget key).2.2 = env.LF) := by
    rw [hk]
    rintro (h | h)
    · exact hd.2.1 h.symm
    · exact hd.2.2.1 h.symm
  simp only [handle_key]
  rw [if_pos he, if_neg h1, if_pos hk]

theorem handle_key_edit_other (env : Env σ β) (context : Nat) (st : LoopState σ β) (key : Int)
    (he : st.widget.editing ≠ 0)
    (h1 : (edit_setting env st.world st.widget key).2.2 ≠ env.CR)
    (h2 : (edit_setting env st.world st.widget key).2.2 ≠ env.LF)
    (h3 : (edit_setting env st.world st.widget key).2.2 ≠ env.CTRL_C) :
    handle_key env context st key =
      Step.next
        { world := (edit_setting env st.world st.widget key).1,
          widget := (edit_setting env st.world st.widget key).2.1,
          current := st.current } := by
  simp only [handle_key]
  rw [if_pos he, if_neg (not_or.mpr ⟨h1, h2⟩), if_neg h3]

theorem handle_key_down (env : Env σ β) (context : Nat) (st : LoopState σ β)
    (he : st.widget.editing = 0) :
    handle_key env context st env.KEY_DOWN =
      Step.next (move_focus env context st
        (if st.current < usub (NUM_SETTINGS env) 1 then (st.current + 1) % U32
          else st.current)) := by
  unfold handle_key
  simp only [he, ne_eq, not_true_eq_false, if_false, if_true]

theorem handle_key_up (env : Env σ β) (context : Nat) (st : LoopState σ β)
    (he : st.widget.editing = 0) :
    handle_key env context st env.KEY_UP =
      Step.next (move_focus env context st
        (if st.current > 0 then usub st.current 1 else st.current)) := by
  have hd := keys_ne env
  unfold handle_key
  simp only [he, ne_eq, not_true_eq_false, if_false, if_true, hd.2.2.2.1.symm]

theorem handle_key_save (env : Env σ β) (context : Nat) (st : LoopState σ β)
    (he : st.widget.editing = 0) :
    handle_key env context st env.CTRL_S =
      Step.ret (env.nvo_save st.world.store).2
        { world :=
            if (env.nvo_save st.world.store).2 ≠ 0 then
              alert env
                ⟨(env.nvo_save st.world.store).1, st.world.colour,
                  st.world.trace ++ [Event.nvo_save]⟩
                (" Could not save options: ".toList
                  ++ cstr (env.strerror (env.nvo_save st.world.store).2) ++ " ".toList)
            else
              ⟨(env.nvo_save st.world.store).1, st.world.colour,
                st.world.trace ++ [Event.nvo_save]⟩,
          widget := st.widget, current := st.current } := by
  have hd := keys_ne env
  unfold handle_key
  simp only [he, ne_eq, not_true_eq_false, if_false, if_true, hd.2.2.2.2.1, hd.2.2.2.2.2.1]

theorem handle_key_browse_other (env : Env σ β) (context : Nat) (st : LoopState σ β) (key : Int)
    (he : st.widget.editing = 0)
    (h1 : key ≠ env.KEY_DOWN) (h2 : key ≠ env.KEY_UP) (h3 : key ≠ env.CTRL_S) :
    handle_key env context st key =
      Step.next (move_focus env context
        { st with world := (edit_setting env st.world st.widget key).1,
                  widget := (edit_setting env st.world st.widget key).2.1 } st.current) := by
  simp only [handle_key]
  rw [if_neg (not_not.mpr he), if_neg h1, if_neg h2, if_neg h3]

theorem next_down_le (N c : Nat) (hN : 1 ≤ N) (h : c ≤ N - 1) :
    (if c < usub (N % U32) 1 then (c + 1) % U32 else c) ≤ N - 1 := by
  unfold usub U32
  split_ifs <;> omega

theorem next_up_le (N c : Nat) (h : c ≤ N - 1) :
    (if c > 0 then usub c 1 else c) ≤ N - 1 := by
  unfold usub U32
  split_ifs <;> omega

theorem handle_key_current_le (env : Env σ β) (context : Nat) (st : LoopState σ β) (key : Int)
    (hN : 1 ≤ env.config_settings.length) (h : st.current ≤ env.config_settings.length - 1) :
    (handle_key env context st key).state.current ≤ env.config_settings.length - 1 := by
  by_cases he : st.widget.editing = 0
  · by_cases h1 : key = env.KEY_DOWN
    · rw [h1, handle_key_down env context st he]
      simp only [Step.state]
      rcases move_focus_current env context st
        (if st.current < usub (NUM_SETTINGS env) 1 then (st.current + 1) % U32
          else st.current) with h3 | h3 <;> rw [h3]
      · exact next_down_le _ _ hN h
      · exact h
    · by_cases h2 : key = env.KEY_UP
      · rw [h2, handle_key_up env context st he]
        simp only [Step.state]
        rcases move_focus_current env context st
          (if st.current > 0 then usub st.current 1 else st.current) with h3 | h3 <;>
          rw [h3]
        · exact next_up_le _ _ h
        · exact h
      · by_cases h3 : key = env.CTRL_S
        · rw [h3, handle_key_save env context st he]
          exact h
        · rw [handle_key_browse_other env context st key he h1 h2 h3]
          simp only [Step.state]
          rcases move_focus_current env context
            { st with world := (edit_setting env st.world st.widget key).1,
                      widget := (edit_setting env st.world st.widget key).2.1 }
            st.current with h4 | h4 <;> rw [h4] <;> exact h
  · by_cases h1 : (edit_setting env st.world st.widget key).2.2 = env.CR ∨
        (edit_setting env st.world st.widget key).2.2 = env.LF
    · rw [handle_key_commit env context st key he h1]; exact h
    · by_cases h2 : (edit_setting env st.world st.widget key).2.2 = env.CTRL_C
      · rw [handle_key_cancel env context st key he h2]; exact h
      · rw [handle_key_edit_other env context st key he (fun h => h1 (Or.inl h))
          (fun h => h1 (Or.inr h)) h2]
        exact h

theorem loop_current_le (env : Env σ β) (context : Nat) (keys : List Int)
    (hN : 1 ≤ env.config_settings.length) :
    ∀ st : LoopState σ β, st.current ≤ env.config_settings.length - 1 →
      (loop env context st keys).state.current ≤ env.config_settings.length - 1 := by
  induction keys with
  | nil => intro st h; exact h
  | cons key keys ih =>
    intro st h
    have hk := handle_key_current_le env context
      { redraw env st with world := (redraw env st).world.emit (Event.getkey key) } key hN h
    simp only [loop, iteration]
    split
    · next st1 heq =>
      rw [heq] at hk
      exact ih st1 hk
    · next rc st1 heq =>
      rw [heq] at hk
      exact hk

/-! ## The row built by `draw_setting` -/

theorem offsetof_name_eq : setting_row.offsetof_name = 1 := rfl
theorem offsetof_value_eq : setting_row.offsetof_value = 17 := rfl
theorem offsetof_nul_eq : setting_row.offsetof_nul = 78 := rfl
theorem sizeof_name_eq : setting_row.sizeof_name = 15 := rfl
theorem sizeof_value_eq : setting_row.sizeof_value = 60 := rfl
theorem sizeof_eq : setting_row.sizeof = 79 := rfl

theorem cstr_ne_NUL (s : List Char) : ∀ c ∈ cstr s, c ≠ NUL := by
  intro c hc
  have h := List.mem_takeWhile_imp hc
  simpa using h

theorem take_strlen (s : List Char) (k : Nat) :
    s.take (if strlen s > k then k else strlen s) = (cstr s).take k := by
  have h : s = cstr s ++ s.dropWhile (fun c => decide (c ≠ NUL)) :=
    (List.takeWhile_append_dropWhile _ s).symm
  have hlen : (if strlen s > k then k else strlen s) ≤ (cstr s).length := by
    unfold strlen; split_ifs <;> omega
  generalize hn : (if strlen s > k then k else strlen s) = n at hlen
  have e : s.take n = (cstr s).take n := by
    conv_lhs => rw [h]
    exact List.take_append_of_le_length hlen
  rw [e, ← hn]
  unfold strlen
  split_ifs with h1
  · rfl
  · rw [List.take_of_length_le (le_refl _), List.take_of_length_le (by omega)]

theorem memcpy_mid (a b c src : List Char) (off n : Nat) (ha : a.length = off)
    (hn : n ≤ b.length) :
    memcpy (a ++ b ++ c) off src n = a ++ (src.take n ++ b.drop n) ++ c := by
  subst ha
  unfold memcpy
  rw [List.append_assoc a b c, List.take_left' rfl, List.drop_append,
    List.drop_append_of_le_length hn]
  simp [List.append_assoc]

theorem cstr_append_NUL (b rest : List Char) (h : ∀ c ∈ b, c ≠ NUL) :
    cstr (b ++ NUL :: rest) = b := by
  unfold cstr
  rw [List.takeWhile_append_of_pos (by simpa using h)]
  simp

theorem field_mid (a b c : List Char) (n m : Nat) (ha : a.length = n) (hb : b.length = m) :
    field (a ++ b ++ c) n m = b := by
  subst ha hb
  simp [field]

theorem row0_eq :
    memset ((memset (List.replicate setting_row.sizeof NUL) 0 SPACE setting_row.sizeof).set
      setting_row.offsetof_nul NUL) setting_row.offsetof_name DOT setting_row.sizeof_name =
    [SPACE] ++ List.replicate 15 DOT ++ ([SPACE] ++ List.replicate 60 SPACE ++ [SPACE, NUL]) := by
  decide

theorem clamp_sub (n k : Nat) : k - (if n > k then k else n) = k - n := by
  split_ifs <;> omega

theorem clamp_le (n k : Nat) : (if n > k then k else n) ≤ k := by
  split_ifs <;> omega

theorem build_row_fst (name value : List Char) :
    (build_row name value).1 =
      [SPACE] ++ ((cstr name).take 15 ++ List.replicate (15 - strlen name) DOT) ++ [SPACE] ++
        ((cstr (if value.headD NUL = NUL then not_specified else value)).take 60 ++
          List.replicate
            (60 - strlen (if value.headD NUL = NUL then not_specified else value)) SPACE) ++
        [SPACE, NUL] := by
  simp only [build_row]
  rw [row0_eq, memcpy_mid [SPACE] (List.replicate 15 DOT)
    ([SPACE] ++ List.replicate 60 SPACE ++ [SPACE, NUL]) name setting_row.offsetof_name
    (if strlen name > setting_row.sizeof_name then setting_row.sizeof_name else strlen name) rfl
    (by rw [List.length_replicate]; exact clamp_le _ 15)]
  rw [take_strlen name setting_row.sizeof_name, List.drop_replicate,
    show setting_row.sizeof_name = 15 from rfl, clamp_sub]
  have e : [SPACE] ++ (List.take 15 (cstr name) ++ List.replicate (15 - strlen name) DOT) ++
      ([SPACE] ++ List.replicate 60 SPACE ++ [SPACE, NUL]) =
      ([SPACE] ++ (List.take 15 (cstr name) ++ List.replicate (15 - strlen name) DOT) ++ [SPACE])
        ++ List.replicate 60 SPACE ++ [SPACE, NUL] := by
    simp only [List.append_assoc]
  have hl : ([SPACE] ++ (List.take 15 (cstr name) ++ List.replicate (15 - strlen name) DOT) ++
      [SPACE]).length = setting_row.offsetof_value := by
    simp only [List.length_append, List.length_take, List.length_replicate, List.length_singleton,
      offsetof_value_eq, strlen]
    omega
  rw [e, memcpy_mid _ (List.replicate 60 SPACE) [SPACE, NUL] _ setting_row.offsetof_value _ hl
    (by rw [List.length_replicate]; exact clamp_le _ 60)]
  rw [take_strlen _ setting_row.sizeof_value, List.drop_replicate,
    show setting_row.sizeof_value = 60 from rfl, clamp_sub]

theorem build_row_snd (name value : List Char) :
    (build_row name value).2 =
      min (strlen (if value.headD NUL = NUL then not_specified else value)) 60 := by
  simp only [build_row, show setting_row.sizeof_value = 60 from rfl]
  split_ifs <;> omega

theorem headD_NUL_iff (value : List Char) : value.headD NUL = NUL ↔ cstr value = [] := by
  cases value with
  | nil => simp [cstr]
  | cons c cs =>
    by_cases h : c = NUL
    · simp [cstr, h]
    · simp [cstr, h]

theorem name_field_length (name : List Char) :
    ((cstr name).take 15 ++ List.replicate (15 - strlen name) DOT).length = 15 := by
  simp only [List.length_append, List.length_take, List.length_replicate, strlen]
  omega

theorem value_field_length (v : List Char) :
    ((cstr v).take 60 ++ List.replicate (60 - strlen v) SPACE).length = 60 := by
  simp only [List.length_append, List.length_take, List.length_replicate, strlen]
  omega

theorem row_text_eq (name value : List Char) :
    row_text name value =
      [SPACE] ++ ((cstr name).take 15 ++ List.replicate (15 - strlen name) DOT) ++ [SPACE] ++
        ((cstr (if value.headD NUL = NUL then not_specified else value)).take 60 ++
          List.replicate
            (60 - strlen (if value.headD NUL = NUL then not_specified else value)) SPACE) ++
        [SPACE] := by
  unfold row_text
  rw [build_row_fst]
  have hS : SPACE ≠ NUL := by decide
  have hD : DOT ≠ NUL := by decide
  have e : ∀ b : List Char, b ++ [SPACE, NUL] = (b ++ [SPACE]) ++ NUL :: [] := by
    intro b; simp
  rw [e]
  apply cstr_append_NUL
  intro c hc
  simp only [List.mem_append, List.mem_singleton, List.mem_replicate] at hc
  rcases hc with (((rfl | h | h) | rfl) | h | h) | rfl
  · exact hS
  · exact cstr_ne_NUL _ c (List.mem_of_mem_take h)
  · rw [h.2]; exact hD
  · exact hS
  · exact cstr_ne_NUL _ c (List.mem_of_mem_take h)
  · rw [h.2]; exact hS
  · exact hS

theorem row_text_name_field (name value : List Char) :
    field (row_text name value) 1 15 =
      (cstr name).take 15 ++ List.replicate (15 - strlen name) DOT := by
  rw [row_text_eq]
  have h := field_mid [SPACE] ((cstr name).take 15 ++ List.replicate (15 - strlen name) DOT)
    ([SPACE] ++
        ((cstr (if value.headD NUL = NUL then not_specified else value)).take 60 ++
          List.replicate
            (60 - strlen (if value.headD NUL = NUL then not_specified else value)) SPACE) ++
        [SPACE]) 1 15 rfl (name_field_length name)
  simpa only [List.append_assoc] using h

theorem row_text_value_field (name value : List Char) :
    field (row_text name value) 17 60 =
      (cstr (if value.headD NUL = NUL then not_specified else value)).take 60 ++
        List.replicate
          (60 - strlen (if value.headD NUL = NUL then not_specified else value)) SPACE := by
  rw [row_text_eq]
  refine field_mid _ _ _ 17 60 ?_ (value_field_length _)
  have h := name_field_length name
  simp only [List.length_append, List.length_singleton] at h ⊢
  omega

theorem draw_setting_trace (env : Env σ β) (w : World σ β) (widget : setting_widget β) :
    (draw_setting env w widget).1.trace =
      w.trace ++
        ([Event.mvprintw w.colour widget.row widget.col
            (row_text (deref env widget.setting).name widget.value),
          Event.move widget.row
            ((widget.col + 17 +
              min (strlen (if widget.value.headD NUL = NUL then not_specified
                else widget.value)) 60) % U32)] ++
         (if widget.editing ≠ 0 then [Event.draw_editbox widget.editbox widget.value] else [])) := by
  unfold draw_setting
  simp only [mvprintw, World.emit, build_row_snd, offsetof_value_eq, row_text]
  split_ifs <;> simp

theorem draw_setting_widget (env : Env σ β) (w : World σ β) (widget : setting_widget β) :
    (draw_setting env w widget).2 = widget := rfl

theorem draw_setting_store (env : Env σ β) (w : World σ β) (widget : setting_widget β) :
    (draw_setting env w widget).1.store = w.store := by
  unfold draw_setting
  simp only [mvprintw, World.emit]
  split_ifs <;> rfl

theorem draw_setting_colour (env : Env σ β) (w : World σ β) (widget : setting_widget β) :
    (draw_setting env w widget).1.colour = w.colour := by
  unfold draw_setting
  simp only [mvprintw, World.emit]
  split_ifs <;> rfl

/-- C6: the name field of the row drawn by `draw_setting`, the 15 characters
at offset 1, is the first 15 characters of the name when the name is longer
than 15 characters, and otherwise the whole name followed by `15 - length`
dots; the name `really-long-setting-name-xyz` is drawn as `really-long-set`. -/
theorem draw_setting_name_field (name value : List Char) :
    field (row_text name value) 1 15 =
      (if strlen name > 15 then (cstr name).take 15
       else cstr name ++ List.replicate (15 - strlen name) DOT) ∧
    field (row_text "really-long-setting-name-xyz".toList value) 1 15 =
      "really-long-set".toList := by
  constructor
  · rw [row_text_name_field]
    unfold strlen
    split_ifs with h
    · rw [show 15 - (cstr name).length = 0 by omega]; simp
    · rw [List.take_of_length_le (by omega)]
  · rw [row_text_name_field]
    decide

theorem value_field_empty (name value : List Char) (h : cstr value = []) :
    field (row_text name value) 17 60 = not_specified ++ List.replicate 45 SPACE := by
  rw [row_text_value_field, if_pos ((headD_NUL_iff value).mpr h)]
  decide

/-- C7: the value field of the row drawn by `draw_setting`, the 60
characters at offset 17, is the placeholder `<not specified>` followed by 45
spaces when the value is the empty string, the value followed by spaces up to
60 characters when its length is at most 60, and its first 60 characters
when it is longer. -/
theorem draw_setting_value_field (name value : List Char) :
    field (row_text name value) 17 60 =
      (if cstr value = [] then not_specified ++ List.replicate 45 SPACE
       else if strlen value ≤ 60 then cstr value ++ List.replicate (60 - strlen value) SPACE
       else (cstr value).take 60) := by
  rw [row_text_value_field]
  by_cases h : cstr value = []
  · rw [if_pos ((headD_NUL_iff value).mpr h), if_pos h]
    decide
  · rw [if_neg (fun h1 => h ((headD_NUL_iff value).mp h1)), if_neg h]
    unfold strlen
    split_ifs with h1
    · rw [List.take_of_length_le h1]
    · rw [show 60 - (cstr value).length = 0 by omega]; simp

/-- C8: the text printed by `draw_setting` has exactly 78 characters: a
space, the 15 characters of the name field, a space, the 60 characters of
the value field, a space, and nothing after it.  Drawing a widget leaves the
widget as it was and emits the same events, with the same row, when it is
done a second time. -/
theorem draw_setting_row_layout (env : Env σ β) (w : World σ β) (widget : setting_widget β)
    (name value : List Char) :
    (row_text name value).length = 78 ∧
    row_text name value =
      [SPACE] ++ field (row_text name value) 1 15 ++ [SPACE] ++
        field (row_text name value) 17 60 ++ [SPACE] ∧
    (field (row_text name value) 1 15).length = 15 ∧
    (field (row_text name value) 17 60).length = 60 ∧
    (draw_setting env w widget).2 = widget ∧
    ∃ events : List (Event β),
      Event.mvprintw w.colour widget.row widget.col
        (row_text (deref env widget.setting).name widget.value) ∈ events ∧
      (draw_setting env w widget).1.trace = w.trace ++ events ∧
      (draw_setting env (draw_setting env w widget).1 (draw_setting env w widget).2).1.trace =
        w.trace ++ events ++ events := by
  refine ⟨?_, ?_, ?_, ?_, rfl, ?_⟩
  · rw [row_text_eq]
    have h1 := name_field_length name
    have h2 := value_field_length (if value.headD NUL = NUL then not_specified else value)
    simp only [List.length_append, List.length_singleton] at h1 h2 ⊢
    omega
  · rw [row_text_name_field, row_text_value_field]
    exact row_text_eq name value
  · rw [row_text_name_field]; exact name_field_length name
  · rw [row_text_value_field]; exact value_field_length _
  · refine ⟨_, ?_, draw_setting_trace env w widget, ?_⟩
    · simp
    · rw [draw_setting_widget, draw_setting_trace, draw_setting_colour, draw_setting_trace]

/-! ## `load_setting` -/

theorem cstr_set_NUL (l : List Char) : cstr (l.set 0 NUL) = [] := by
  cases l with
  | nil => rfl
  | cons c cs => simp [cstr]

theorem load_setting_value (env : Env σ β) (w : World σ β) (widget : setting_widget β) :
    cstr (load_setting env w widget).2.value =
      (if (env.show_setting w.store widget.context widget.setting widget.value
            sizeof_widget_value).1 ≠ 0 then []
       else cstr (env.show_setting w.store widget.context widget.setting widget.value
            sizeof_widget_value).2) := by
  unfold load_setting
  split_ifs with h
  · simp only [if_pos h]
    exact cstr_set_NUL _
  · simp only [if_neg h]

theorem load_setting_frame (env : Env σ β) (w : World σ β) (widget : setting_widget β) :
    (load_setting env w widget).2.editing = 0 ∧
    (load_setting env w widget).2.context = widget.context ∧
    (load_setting env w widget).2.setting = widget.setting ∧
    (load_setting env w widget).2.row = widget.row ∧
    (load_setting env w widget).2.col = widget.col ∧
    (load_setting env w widget).1.store = w.store ∧
    (load_setting env w widget).1.colour = w.colour := by
  by_cases h : (env.show_setting w.store widget.context widget.setting widget.value
      sizeof_widget_value).1 = 0 <;>
    simp [load_setting, World.emit, h]

theorem load_setting_trace (env : Env σ β) (w : World σ β) (widget : setting_widget β) :
    (load_setting env w widget).1.trace =
      w.trace ++
        [Event.show_setting widget.context widget.setting sizeof_widget_value,
         Event.init_editbox (load_setting env w widget).2.value sizeof_widget_value widget.row
           ((widget.col + 17) % U32) 60] ∧
    (load_setting env w widget).2.editbox =
      env.init_editbox (load_setting env w widget).2.value sizeof_widget_value widget.row
        ((widget.col + 17) % U32) 60 := by
  unfold load_setting
  simp only [World.emit, offsetof_value_eq, sizeof_value_eq]
  split_ifs <;> simp

/-- C4: when the read of the store fails, `load_setting` leaves the empty
string in the value buffer and the widget not editing, whatever they were
before; it makes its two calls (`show_setting`, `init_editbox`) and raises no
alert, and the widget is then drawn with the placeholder `<not specified>`
in the value field. -/
theorem load_setting_read_failure (env : Env σ β) (w : World σ β) (widget : setting_widget β)
    (hfail : (env.show_setting w.store widget.context widget.setting widget.value
      sizeof_widget_value).1 ≠ 0) :
    cstr (load_setting env w widget).2.value = [] ∧
    (load_setting env w widget).2.editing = 0 ∧
    (load_setting env w widget).1.trace =
      w.trace ++
        [Event.show_setting widget.context widget.setting sizeof_widget_value,
         Event.init_editbox (load_setting env w widget).2.value sizeof_widget_value widget.row
           ((widget.col + 17) % U32) 60] ∧
    alerts (load_setting env w widget).1.trace = alerts w.trace ∧
    field (row_text (deref env (load_setting env w widget).2.setting).name
      (load_setting env w widget).2.value) 17 60 = not_specified ++ List.replicate 45 SPACE ∧
    Event.mvprintw (load_setting env w widget).1.colour widget.row widget.col
        (row_text (deref env widget.setting).name (load_setting env w widget).2.value) ∈
      (draw_setting env (load_setting env w widget).1 (load_setting env w widget).2).1.trace := by
  have hv : cstr (load_setting env w widget).2.value = [] := by
    rw [load_setting_value, if_pos hfail]
  have hf := load_setting_frame env w widget
  refine ⟨hv, hf.1, (load_setting_trace env w widget).1, ?_, ?_, ?_⟩
  · rw [(load_setting_trace env w widget).1]
    simp [alerts, Event.is_alert]
  · exact value_field_empty _ _ hv
  · rw [draw_setting_trace, hf.2.2.1, hf.2.2.2.1, hf.2.2.2.2.1]
    simp

/-- A widget bound to the second setting, for which the demo store has no
value. -/
theorem load_setting_read_failure_witness :
    (demo_env.show_setting demo_world.store 7 (some 1) demo_widget.value
      sizeof_widget_value).1 ≠ 0 ∧
    cstr (load_setting demo_env demo_world { demo_widget with setting := some 1 }).2.value = [] :=
  ⟨by decide,
   (load_setting_read_failure demo_env demo_world { demo_widget with setting := some 1 }
      (by decide)).1⟩

/-! ## Cursor column and edit box geometry -/

/-- C15 as stated fails: the widget of the first demo setting is at column
1 and shows the 8 characters `10.0.0.1`; `draw_setting` moves the cursor to
column `1 + 17 + 8 = 26`, while `col + 16 + min (length) 60` is 25. -/
theorem curs_col_not_col_plus_16 :
    (draw_setting demo_env demo_world demo_widget).1.trace =
      [Event.mvprintw CPAIR_NORMAL 3 1 (row_text "ip".toList demo_widget.value),
       Event.move 3 26] ∧
    demo_widget.col + 16 + min (strlen demo_widget.value) 60 = 25 := by
  constructor
  · rw [draw_setting_trace]
    decide
  · decide

/-- C15, amended: the cursor column computed by `draw_setting` is
`col + 17 + min (length shown) 60` in `unsigned` arithmetic, where 17 is
`offsetof ( struct setting_row, value )` and `shown` is the value buffer, or
the placeholder when the buffer holds the empty string; when the sum does
not wrap it lies between `col + 17` and `col + 77`, the column of the last
character of the row. -/
theorem draw_setting_curs_col (env : Env σ β) (w : World σ β) (widget : setting_widget β) :
    ∃ curs_col : Nat,
      (draw_setting env w widget).1.trace =
        w.trace ++
          ([Event.mvprintw w.colour widget.row widget.col
              (row_text (deref env widget.setting).name widget.value),
            Event.move widget.row curs_col] ++
           (if widget.editing ≠ 0 then [Event.draw_editbox widget.editbox widget.value]
            else [])) ∧
      curs_col =
        (widget.col + setting_row.offsetof_value +
          min (strlen (if cstr widget.value = [] then not_specified else widget.value)) 60)
          % U32 ∧
      setting_row.offsetof_value = 17 ∧
      (widget.col + 77 < U32 →
        curs_col = widget.col + 17 +
            min (strlen (if cstr widget.value = [] then not_specified else widget.value)) 60 ∧
          widget.col + 17 ≤ curs_col ∧ curs_col ≤ widget.col + 77 ∧
          widget.col + 77 = widget.col + (row_text (deref env widget.setting).name
            widget.value).length - 1) := by
  refine ⟨_, draw_setting_trace env w widget, ?_, rfl, ?_⟩
  · simp only [headD_NUL_iff, offsetof_value_eq]
  · intro h
    have hlen : (row_text (deref env widget.setting).name widget.value).length = 78 := by
      rw [row_text_eq]
      have h1 := name_field_length (deref env widget.setting).name
      have h2 := value_field_length
        (if widget.value.headD NUL = NUL then not_specified else widget.value)
      simp only [List.length_append, List.length_singleton] at h1 h2 ⊢
      omega
    simp only [headD_NUL_iff, hlen]
    unfold U32 at *
    omega

/-- C16 as stated fails: the widget of the first demo setting is at column
1; `load_setting` initialises the edit box at column `1 + 17 = 18`, not at
`col + 16 = 17`. -/
theorem editbox_not_at_col_plus_16 :
    (load_setting demo_env demo_world demo_widget).1.trace =
      [Event.show_setting 7 (some 0) 256,
       Event.init_editbox ("10.0.0.1".toList ++ [NUL]) 256 3 18 60] ∧
    demo_widget.col + 16 = 17 := by
  decide

/-- C16, amended: `load_setting`, and so `init_setting`, initialises the
edit box over the widget's value buffer of 256 bytes, on the widget's row,
at column `col + 17` in `unsigned` arithmetic and with width 60, where 17 is
the offset and 60 the size of the value field in `struct setting_row`: the
edit box covers the columns `col + 17 .. col + 76` on which `draw_setting`
prints the value field.  `draw_setting` calls `draw_editbox` if and only if
`editing` is set. -/
theorem load_setting_editbox_geometry (env : Env σ β) (w : World σ β)
    (widget : setting_widget β) (context : Nat) (setting : Option Nat) (row col : Nat) :
    (load_setting env w widget).1.trace =
      w.trace ++
        [Event.show_setting widget.context widget.setting sizeof_widget_value,
         Event.init_editbox (load_setting env w widget).2.value sizeof_widget_value widget.row
           ((widget.col + 17) % U32) 60] ∧
    (load_setting env w widget).2.editbox =
      env.init_editbox (load_setting env w widget).2.value sizeof_widget_value widget.row
        ((widget.col + 17) % U32) 60 ∧
    (init_setting env w context setting row col).1.trace =
      w.trace ++
        [Event.show_setting context setting sizeof_widget_value,
         Event.init_editbox (init_setting env w context setting row col).2.value
           sizeof_widget_value row ((col + 17) % U32) 60] ∧
    sizeof_widget_value = 256 ∧
    setting_row.offsetof_value = 17 ∧ setting_row.sizeof_value = 60 ∧
    (∀ name value : List Char,
      (row_text name value).drop 17 = field (row_text name value) 17 60 ++ [SPACE]) ∧
    (Event.draw_editbox widget.editbox widget.value ∈
        (draw_setting env w widget).1.trace.drop w.trace.length ↔ widget.editing ≠ 0) := by
  refine ⟨(load_setting_trace env w widget).1, (load_setting_trace env w widget).2, ?_, rfl, rfl,
    rfl, ?_, ?_⟩
  · exact (load_setting_trace env w
      { context := context, setting := setting, row := row, col := col,
        editbox := env.zero_editbox, editing := 0,
        value := List.replicate sizeof_widget_value NUL }).1
  · intro name value
    rw [row_text_value_field, row_text_eq]
    have h1 := name_field_length name
    rw [List.append_assoc, List.drop_append_of_le_length (by
      simp only [List.length_append, List.length_singleton] at h1 ⊢; omega)]
    rw [List.drop_of_length_le (by
      simp only [List.length_append, List.length_singleton] at h1 ⊢; omega)]
    rfl
  · rw [draw_setting_trace, List.drop_left']
    · by_cases h : widget.editing = 0 <;> simp [h]
    · rfl

/-! ## Effects of the collaborator calls on the trace -/

theorem store_calls_append (t u : List (Event β)) :
    store_calls (t ++ u) = store_calls t ++ store_calls u := by
  simp [store_calls]

theorem writes_append (t u : List (Event β)) : writes (t ++ u) = writes t + writes u := by
  simp [writes]

theorem alerts_append (t u : List (Event β)) : alerts (t ++ u) = alerts t + alerts u := by
  simp [alerts]

theorem alert_trace (env : Env σ β) (w : World σ β) (text : List Char) :
    (alert env w text).trace =
      w.trace ++
        [Event.move ALERT_ROW 0, Event.clrtoeol, Event.color_set CPAIR_ALERT,
         Event.mvprintw CPAIR_ALERT ALERT_ROW (usub (env.COLS % U32) (text.length % U32) / 2)
           (text.take (env.COLS - 1)),
         Event.sleep 2, Event.color_set CPAIR_NORMAL, Event.move ALERT_ROW 0, Event.clrtoeol] := by
  simp [alert, valert, vmsg, clearmsg, color_set, mvprintw, World.emit]

theorem alert_frame (env : Env σ β) (w : World σ β) (text : List Char) :
    (alert env w text).store = w.store ∧ (alert env w text).colour = CPAIR_NORMAL ∧
    store_calls (alert env w text).trace = store_calls w.trace ∧
    writes (alert env w text).trace = writes w.trace ∧
    alerts (alert env w text).trace = alerts w.trace + 1 := by
  refine ⟨rfl, rfl, ?_, ?_, ?_⟩
  · rw [alert_trace, store_calls_append]
    simp [store_calls, Event.is_store_call]
  · rw [alert_trace, writes_append]
    simp [writes, Event.is_set_setting]
  · rw [alert_trace, alerts_append]
    simp [alerts, Event.is_alert, CPAIR_ALERT, CPAIR_NORMAL]

theorem load_setting_calls (env : Env σ β) (w : World σ β) (widget : setting_widget β) :
    store_calls (load_setting env w widget).1.trace =
      store_calls w.trace ++
        [Event.show_setting widget.context widget.setting sizeof_widget_value] ∧
    writes (load_setting env w widget).1.trace = writes w.trace ∧
    alerts (load_setting env w widget).1.trace = alerts w.trace := by
  refine ⟨?_, ?_, ?_⟩
  · rw [(load_setting_trace env w widget).1, store_calls_append]
    simp [store_calls, Event.is_store_call]
  · rw [(load_setting_trace env w widget).1, writes_append]
    simp [writes, Event.is_set_setting]
  · rw [(load_setting_trace env w widget).1, alerts_append]
    simp [alerts, Event.is_alert]

theorem draw_setting_calls (env : Env σ β) (w : World σ β) (widget : setting_widget β) :
    store_calls (draw_setting env w widget).1.trace = store_calls w.trace ∧
    writes (draw_setting env w widget).1.trace = writes w.trace ∧
    alerts (draw_setting env w widget).1.trace = alerts w.trace := by
  refine ⟨?_, ?_, ?_⟩
  · rw [draw_setting_trace, store_calls_append]
    by_cases h : widget.editing = 0 <;> simp [store_calls, Event.is_store_call, h]
  · rw [draw_setting_trace, writes_append]
    by_cases h : widget.editing = 0 <;> simp [writes, Event.is_set_setting, h]
  · rw [draw_setting_trace, alerts_append]
    by_cases h : widget.editing = 0 <;> simp [alerts, Event.is_alert, h]

theorem edit_setting_frame (env : Env σ β) (w : World σ β) (widget : setting_widget β)
    (key : Int) :
    (edit_setting env w widget key).1.store = w.store ∧
    (edit_setting env w widget key).1.colour = w.colour ∧
    (edit_setting env w widget key).1.trace =
      w.trace ++ [Event.edit_editbox widget.editbox widget.value key] ∧
    (edit_setting env w widget key).2.1.editing = 1 ∧
    (edit_setting env w widget key).2.1.context = widget.context ∧
    (edit_setting env w widget key).2.1.setting = widget.setting ∧
    (edit_setting env w widget key).2.1.row = widget.row ∧
    (edit_setting env w widget key).2.1.col = widget.col ∧
    (edit_setting env w widget key).2.1.editbox =
      (env.edit_editbox widget.editbox widget.value key).1 ∧
    (edit_setting env w widget key).2.1.value =
      (env.edit_editbox widget.editbox widget.value key).2.1 ∧
    (edit_setting env w widget key).2.2 = (env.edit_editbox widget.editbox widget.value key).2.2 :=
  ⟨rfl, rfl, rfl, rfl, rfl, rfl, rfl, rfl, rfl, rfl, rfl⟩

theorem edit_setting_calls (env : Env σ β) (w : World σ β) (widget : setting_widget β)
    (key : Int) :
    store_calls (edit_setting env w widget key).1.trace = store_calls w.trace ∧
    writes (edit_setting env w widget key).1.trace = writes w.trace ∧
    alerts (edit_setting env w widget key).1.trace = alerts w.trace := by
  refine ⟨?_, ?_, ?_⟩
  · rw [(edit_setting_frame env w widget key).2.2.1, store_calls_append]
    simp [store_calls, Event.is_store_call]
  · rw [(edit_setting_frame env w widget key).2.2.1, writes_append]
    simp [writes, Event.is_set_setting]
  · rw [(edit_setting_frame env w widget key).2.2.1, alerts_append]
    simp [alerts, Event.is_alert]

theorem save_setting_frame (env : Env σ β) (w : World σ β) (widget : setting_widget β) :
    (save_setting env w widget).1.store =
      (env.set_setting w.store widget.context widget.setting widget.value).1 ∧
    (save_setting env w widget).2 =
      (env.set_setting w.store widget.context widget.setting widget.value).2 ∧
    (save_setting env w widget).1.colour = w.colour ∧
    (save_setting env w widget).1.trace =
      w.trace ++ [Event.set_setting widget.context widget.setting widget.value] :=
  ⟨rfl, rfl, rfl, rfl⟩

theorem save_setting_calls (env : Env σ β) (w : World σ β) (widget : setting_widget β) :
    store_calls (save_setting env w widget).1.trace =
      store_calls w.trace ++ [Event.set_setting widget.context widget.setting widget.value] ∧
    writes (save_setting env w widget).1.trace = writes w.trace + 1 ∧
    alerts (save_setting env w widget).1.trace = alerts w.trace := by
  refine ⟨?_, ?_, ?_⟩
  · rw [(save_setting_frame env w widget).2.2.2, store_calls_append]
    simp [store_calls, Event.is_store_call]
  · rw [(save_setting_frame env w widget).2.2.2, writes_append]
    simp [writes, Event.is_set_setting]
  · rw [(save_setting_frame env w widget).2.2.2, alerts_append]
    simp [alerts, Event.is_alert]

theorem maybe_alert_frame (env : Env σ β) (w : World σ β) (rc : Int) (text : List Char) :
    (if rc ≠ 0 then alert env w text else w).store = w.store ∧
    store_calls (if rc ≠ 0 then alert env w text else w).trace = store_calls w.trace ∧
    writes (if rc ≠ 0 then alert env w text else w).trace = writes w.trace ∧
    alerts (if rc ≠ 0 then alert env w text else w).trace =
      alerts w.trace + (if rc ≠ 0 then 1 else 0) := by
  have h := alert_frame env w text
  by_cases hr : rc ≠ 0
  · simp only [if_pos hr]
    exact ⟨h.1, h.2.2.1, h.2.2.2.1, h.2.2.2.2⟩
  · rw [if_neg hr, if_neg hr]
    exact ⟨rfl, rfl, rfl, rfl⟩

/-- C2: in Edit mode, when the line editor returns CR or LF for the key,
the step of `main_loop` calls `set_setting` once with the widget's value
buffer and then `show_setting` (through `load_setting`), whether or not the
write succeeded; an alert is raised exactly when the write fails.  After the
step the widget is not editing, the value buffer holds what `show_setting`
reads from the store left by the write attempt (the empty string when the
read fails), the focus and the binding are as before, and the loop goes
on. -/
theorem commit_step (env : Env σ β) (context : Nat) (st : LoopState σ β) (key : Int)
    (he : st.widget.editing ≠ 0)
    (hk : (env.edit_editbox st.widget.editbox st.widget.value key).2.2 = env.CR ∨
      (env.edit_editbox st.widget.editbox st.widget.value key).2.2 = env.LF) :
    ∃ st1 : LoopState σ β,
      handle_key env context st key = Step.next st1 ∧
      st1.current = st.current ∧
      st1.widget.setting = st.widget.setting ∧
      st1.widget.editing = 0 ∧
      store_calls st1.world.trace =
        store_calls st.world.trace ++
          [Event.set_setting st.widget.context st.widget.setting
             (env.edit_editbox st.widget.editbox st.widget.value key).2.1,
           Event.show_setting st.widget.context st.widget.setting sizeof_widget_value] ∧
      writes st1.world.trace = writes st.world.trace + 1 ∧
      st1.world.store =
        (env.set_setting st.world.store st.widget.context st.widget.setting
          (env.edit_editbox st.widget.editbox st.widget.value key).2.1).1 ∧
      cstr st1.widget.value =
        (if (env.show_setting st1.world.store st.widget.context st.widget.setting
              (env.edit_editbox st.widget.editbox st.widget.value key).2.1
              sizeof_widget_value).1 ≠ 0 then []
         else cstr (env.show_setting st1.world.store st.widget.context st.widget.setting
              (env.edit_editbox st.widget.editbox st.widget.value key).2.1
              sizeof_widget_value).2) ∧
      alerts st1.world.trace =
        alerts st.world.trace +
          (if (env.set_setting st.world.store st.widget.context st.widget.setting
            (env.edit_editbox st.widget.editbox st.widget.value key).2.1).2 ≠ 0 then 1 else 0) := by
  refine ⟨_, handle_key_commit env context st key he hk, rfl, ?_, ?_, ?_, ?_, ?_, ?_, ?_⟩
  · exact (load_setting_frame env _ _).2.2.1
  · exact (load_setting_frame env _ _).1
  · rw [(load_setting_calls env _ _).1, (maybe_alert_frame env _ _ _).2.1,
      (save_setting_calls env _ _).1, (edit_setting_calls env _ _ _).1, List.append_assoc]
    rfl
  · rw [(load_setting_calls env _ _).2.1, (maybe_alert_frame env _ _ _).2.2.1,
      (save_setting_calls env _ _).2.1, (edit_setting_calls env _ _ _).2.1]
  · rw [(load_setting_frame env _ _).2.2.2.2.2.1, (maybe_alert_frame env _ _ _).1]
    rfl
  · rw [load_setting_value, (load_setting_frame env _ _).2.2.2.2.2.1,
      (maybe_alert_frame env _ _ _).1]
    rfl
  · rw [(load_setting_calls env _ _).2.2, (maybe_alert_frame env _ _ _).2.2.2,
      (save_setting_calls env _ _).2.2, (edit_setting_calls env _ _ _).2.2]
    rfl

/-- The demo widget in Edit mode, with the key CR. -/
theorem commit_step_witness :
    demo_state_editing.widget.editing ≠ 0 ∧
    (demo_env.edit_editbox demo_state_editing.widget.editbox demo_state_editing.widget.value
      13).2.2 = demo_env.CR ∧
    ∃ st1 : LoopState (List (List Char)) Nat,
      handle_key demo_env 7 demo_state_editing 13 = Step.next st1 ∧
      st1.current = demo_state_editing.current ∧
      st1.widget.editing = 0 :=
  ⟨by decide, by decide,
   (commit_step demo_env 7 demo_state_editing 13 (by decide) (Or.inl (by decide))).imp
     (fun _ h => ⟨h.1, h.2.1, h.2.2.2.1⟩)⟩

/-- C3: in Edit mode, when the line editor returns CTRL_C for the key, the
step of `main_loop` makes one call to the store, the `show_setting` of
`load_setting`: no `set_setting` and no `nvo_save`, and the store is as it
was.  After the step the widget is not editing, the value buffer holds what
`show_setting` reads from that store for the bound setting (the empty string
when the read fails), the focus and the binding are as before, and the loop
goes on.  When the outcome of a read does not depend on what the buffer held
before, this is the value that every earlier `load_setting` of this setting
from the same store displayed. -/
theorem cancel_step (env : Env σ β) (context : Nat) (st : LoopState σ β) (key : Int)
    (he : st.widget.editing ≠ 0)
    (hk : (env.edit_editbox st.widget.editbox st.widget.value key).2.2 = env.CTRL_C) :
    ∃ st1 : LoopState σ β,
      handle_key env context st key = Step.next st1 ∧
      st1.current = st.current ∧
      st1.widget.setting = st.widget.setting ∧
      st1.widget.editing = 0 ∧
      st1.world.store = st.world.store ∧
      store_calls st1.world.trace =
        store_calls st.world.trace ++
          [Event.show_setting st.widget.context st.widget.setting sizeof_widget_value] ∧
      writes st1.world.trace = writes st.world.trace ∧
      alerts st1.world.trace = alerts st.world.trace ∧
      cstr st1.widget.value =
        (if (env.show_setting st.world.store st.widget.context st.widget.setting
              (env.edit_editbox st.widget.editbox st.widget.value key).2.1
              sizeof_widget_value).1 ≠ 0 then []
         else cstr (env.show_setting st.world.store st.widget.context st.widget.setting
              (env.edit_editbox st.widget.editbox st.widget.value key).2.1
              sizeof_widget_value).2) ∧
      ((∀ b1 b2 : List Char,
          (env.show_setting st.world.store st.widget.context st.widget.setting b1
            sizeof_widget_value).1 =
          (env.show_setting st.world.store st.widget.context st.widget.setting b2
            sizeof_widget_value).1 ∧
          cstr (env.show_setting st.world.store st.widget.context st.widget.setting b1
            sizeof_widget_value).2 =
          cstr (env.show_setting st.world.store st.widget.context st.widget.setting b2
            sizeof_widget_value).2) →
        ∀ (w0 : World σ β) (widget0 : setting_widget β),
          w0.store = st.world.store → widget0.context = st.widget.context →
          widget0.setting = st.widget.setting →
          cstr st1.widget.value = cstr (load_setting env w0 widget0).2.value) := by
  refine ⟨_, handle_key_cancel env context st key he hk, rfl, ?_, ?_, ?_, ?_, ?_, ?_, ?_, ?_⟩
  · exact (load_setting_frame env _ _).2.2.1
  · exact (load_setting_frame env _ _).1
  · exact (load_setting_frame env _ _).2.2.2.2.2.1
  · rw [(load_setting_calls env _ _).1, (edit_setting_calls env _ _ _).1]
    rfl
  · rw [(load_setting_calls env _ _).2.1, (edit_setting_calls env _ _ _).2.1]
  · rw [(load_setting_calls env _ _).2.2, (edit_setting_calls env _ _ _).2.2]
  · rw [load_setting_value]
    rfl
  · intro hind w0 widget0 h1 h2 h3
    rw [load_setting_value, load_setting_value, h1, h2, h3]
    have h := hind (edit_setting env st.world st.widget key).2.1.value widget0.value
    simp only [(edit_setting_frame env st.world st.widget key).1,
      (edit_setting_frame env st.world st.widget key).2.2.2.2.1,
      (edit_setting_frame env st.world st.widget key).2.2.2.2.2.1]
    rw [h.1, h.2]

/-- The demo widget in Edit mode, with `9` typed after `10.0.0.1`, and the
key CTRL_C: the store is untouched and the widget shows `10.0.0.1` again. -/
theorem cancel_step_witness :
    demo_state_editing.widget.editing ≠ 0 ∧
    (demo_env.edit_editbox demo_state_editing.widget.editbox demo_state_editing.widget.value
      3).2.2 = demo_env.CTRL_C ∧
    ∃ st1 : LoopState (List (List Char)) Nat,
      handle_key demo_env 7 demo_state_editing 3 = Step.next st1 ∧
      st1.world.store = demo_state_editing.world.store ∧
      st1.widget.editing = 0 ∧
      cstr st1.widget.value = "10.0.0.1".toList :=
  ⟨by decide, by decide,
   (cancel_step demo_env 7 demo_state_editing 3 (by decide) (by decide)).imp
     (fun _ h => ⟨h.1, h.2.2.2.2.1, h.2.2.2.1, h.2.2.2.2.2.2.2.2.1.trans (by decide)⟩)⟩

/-! ## The redraw at the top of an iteration -/

theorem msg_trace (env : Env σ β) (w : World σ β) (row : Nat) (text : List Char) :
    (msg env w row text).trace =
      w.trace ++ [Event.mvprintw w.colour row
        (usub (env.COLS % U32) (text.length % U32) / 2) (text.take (env.COLS - 1))] :=
  rfl

theorem clearmsg_msg_trace (env : Env σ β) (w : World σ β) (row : Nat) (text : List Char) :
    (msg env (clearmsg w row) row text).trace =
      w.trace ++ [Event.move row 0, Event.clrtoeol, Event.mvprintw w.colour row
        (usub (env.COLS % U32) (text.length % U32) / 2) (text.take (env.COLS - 1))] := by
  simp only [World.emit, msg_trace, clearmsg, List.append_assoc,
    List.singleton_append, List.cons_append, List.nil_append]

theorem draw_info_row_explicit (env : Env σ β) (w : World σ β) (text : List Char) :
    (((msg env ((clearmsg w INFO_ROW).emit Event.attron_bold) INFO_ROW text).emit
      Event.attroff_bold)).trace =
      w.trace ++ [Event.move INFO_ROW 0, Event.clrtoeol, Event.attron_bold,
        Event.mvprintw w.colour INFO_ROW
          (usub (env.COLS % U32) (text.length % U32) / 2) (text.take (env.COLS - 1)),
        Event.attroff_bold] := by
  simp only [World.emit, msg_trace, clearmsg, List.append_assoc,
    List.singleton_append, List.cons_append, List.nil_append]

theorem draw_info_row_trace (env : Env σ β) (w : World σ β) (setting : Option Nat) :
    ∃ col : Nat, ∃ text : List Char,
      (draw_info_row env w setting).trace =
        w.trace ++ [Event.move INFO_ROW 0, Event.clrtoeol, Event.attron_bold,
          Event.mvprintw w.colour INFO_ROW col text, Event.attroff_bold] ∧
      (draw_info_row env w setting).store = w.store ∧
      (draw_info_row env w setting).colour = w.colour :=
  ⟨_, _, draw_info_row_explicit env w _, rfl, rfl⟩

theorem draw_instruction_row_eq (env : Env σ β) (w : World σ β) (editing : Int) :
    draw_instruction_row env w editing =
      msg env (clearmsg w INSTRUCTION_ROW) INSTRUCTION_ROW
        (if editing ≠ 0 then
          "Enter - accept changes".toList ++ INSTRUCTION_PAD ++ "Ctrl-C - discard changes".toList
         else "Ctrl-S - save configuration".toList) := by
  unfold draw_instruction_row
  split_ifs <;> rfl

theorem draw_instruction_row_trace (env : Env σ β) (w : World σ β) (editing : Int) :
    ∃ col : Nat, ∃ text : List Char,
      (draw_instruction_row env w editing).trace =
        w.trace ++ [Event.move INSTRUCTION_ROW 0, Event.clrtoeol,
          Event.mvprintw w.colour INSTRUCTION_ROW col text] ∧
      (draw_instruction_row env w editing).store = w.store ∧
      (draw_instruction_row env w editing).colour = w.colour := by
  rw [draw_instruction_row_eq]
  exact ⟨_, _, clearmsg_msg_trace env w _ _, rfl, rfl⟩

theorem redraw_trace (env : Env σ β) (st : LoopState σ β) :
    ∃ rows : List (Event β),
      store_calls rows = [] ∧ writes rows = 0 ∧ alerts rows = 0 ∧
      (redraw env st).world.trace =
        st.world.trace ++ rows ++
          ([Event.color_set (if st.widget.editing ≠ 0 then CPAIR_EDIT else CPAIR_SELECT),
            Event.mvprintw (if st.widget.editing ≠ 0 then CPAIR_EDIT else CPAIR_SELECT)
              st.widget.row st.widget.col
              (row_text (deref env st.widget.setting).name st.widget.value),
            Event.move st.widget.row
              ((st.widget.col + 17 +
                min (strlen (if st.widget.value.headD NUL = NUL then not_specified
                  else st.widget.value)) 60) % U32)] ++
           (if st.widget.editing ≠ 0 then
              [Event.draw_editbox st.widget.editbox st.widget.value] else []) ++
           [Event.color_set CPAIR_NORMAL]) := by
  obtain ⟨c1, t1, h1, -, k1⟩ := draw_info_row_trace env st.world st.widget.setting
  obtain ⟨c2, t2, h2, -, k2⟩ := draw_instruction_row_trace env
    (draw_info_row env st.world st.widget.setting) st.widget.editing
  refine ⟨[Event.move INFO_ROW 0, Event.clrtoeol, Event.attron_bold,
          Event.mvprintw st.world.colour INFO_ROW c1 t1, Event.attroff_bold,
          Event.move INSTRUCTION_ROW 0, Event.clrtoeol,
          Event.mvprintw st.world.colour INSTRUCTION_ROW c2 t2], ?_, ?_, ?_, ?_⟩
  · simp [store_calls, Event.is_store_call]
  · simp [writes, Event.is_set_setting]
  · simp [alerts, Event.is_alert]
  · simp only [redraw, color_set]
    rw [draw_setting_trace]
    simp only [h2, h1, k1]
    simp

theorem redraw_frame (env : Env σ β) (st : LoopState σ β) :
    (redraw env st).widget = st.widget ∧ (redraw env st).current = st.current ∧
    (redraw env st).world.store = st.world.store ∧
    (redraw env st).world.colour = CPAIR_NORMAL := by
  refine ⟨rfl, rfl, ?_, rfl⟩
  simp only [redraw, color_set]
  rw [draw_setting_store]
  obtain ⟨_, _, -, h2, -⟩ := draw_instruction_row_trace env
    (draw_info_row env st.world st.widget.setting) st.widget.editing
  rw [h2]
  rfl

theorem redraw_calls (env : Env σ β) (st : LoopState σ β) :
    store_calls (redraw env st).world.trace = store_calls st.world.trace ∧
    writes (redraw env st).world.trace = writes st.world.trace ∧
    alerts (redraw env st).world.trace = alerts st.world.trace := by
  obtain ⟨rows, h1, h2, h3, h⟩ := redraw_trace env st
  rw [h]
  refine ⟨?_, ?_, ?_⟩
  · rw [store_calls_append, store_calls_append, h1]
    by_cases he : st.widget.editing = 0 <;> simp [store_calls, Event.is_store_call, he]
  · rw [writes_append, writes_append, h2]
    by_cases he : st.widget.editing = 0 <;> simp [writes, Event.is_set_setting, he]
  · rw [alerts_append, alerts_append, h3]
    by_cases he : st.widget.editing = 0 <;>
      simp [alerts, Event.is_alert, he, CPAIR_ALERT, CPAIR_EDIT, CPAIR_SELECT, CPAIR_NORMAL]

/-! ## One iteration of the loop -/

theorem iteration_eq (env : Env σ β) (context : Nat) (st : LoopState σ β) (key : Int) :
    iteration env context st key =
      handle_key env context
        { world := (redraw env st).world.emit (Event.getkey key), widget := st.widget,
          current := st.current } key :=
  rfl

theorem getkey_calls (w : World σ β) (key : Int) :
    (w.emit (Event.getkey key)).store = w.store ∧
    (w.emit (Event.getkey key)).colour = w.colour ∧
    store_calls (w.emit (Event.getkey key)).trace = store_calls w.trace ∧
    writes (w.emit (Event.getkey key)).trace = writes w.trace ∧
    alerts (w.emit (Event.getkey key)).trace = alerts w.trace := by
  refine ⟨rfl, rfl, ?_, ?_, ?_⟩
  · simp [World.emit, store_calls, Event.is_store_call]
  · simp [World.emit, writes, Event.is_set_setting]
  · simp [World.emit, alerts, Event.is_alert]

theorem before_key_calls (env : Env σ β) (st : LoopState σ β) (key : Int) :
    ((redraw env st).world.emit (Event.getkey key)).store = st.world.store ∧
    ((redraw env st).world.emit (Event.getkey key)).colour = CPAIR_NORMAL ∧
    store_calls ((redraw env st).world.emit (Event.getkey key)).trace =
      store_calls st.world.trace ∧
    writes ((redraw env st).world.emit (Event.getkey key)).trace = writes st.world.trace ∧
    alerts ((redraw env st).world.emit (Event.getkey key)).trace = alerts st.world.trace := by
  have h := getkey_calls (redraw env st).world key
  have r := redraw_calls env st
  have f := redraw_frame env st
  exact ⟨h.1.trans f.2.2.1, h.2.1.trans f.2.2.2, h.2.2.1.trans r.1, h.2.2.2.1.trans r.2.1,
    h.2.2.2.2.trans r.2.2⟩

theorem loop_blocked (env : Env σ β) (context : Nat) (pre : List Int) :
    ∀ (st0 stb : LoopState σ β), loop env context st0 pre = Outcome.blocked stb →
      ∃ st : LoopState σ β, stb = redraw env st ∧
        ∀ keys : List Int, loop env context st0 (pre ++ keys) = loop env context st keys := by
  induction pre with
  | nil =>
    intro st0 stb h
    simp only [loop, Outcome.blocked.injEq] at h
    exact ⟨st0, h.symm, fun keys => rfl⟩
  | cons key pre ih =>
    intro st0 stb h
    simp only [loop] at h
    cases hi : iteration env context st0 key with
    | next st1 =>
      rw [hi] at h
      obtain ⟨st, h1, h2⟩ := ih st1 stb h
      refine ⟨st, h1, fun keys => ?_⟩
      simp only [List.cons_append, loop, hi]
      exact h2 keys
    | ret rc st1 =>
      rw [hi] at h
      cases h

theorem save_key_world (env : Env σ β) (w : World σ β) :
    (if (env.nvo_save w.store).2 ≠ 0 then
        alert env ⟨(env.nvo_save w.store).1, w.colour, w.trace ++ [Event.nvo_save]⟩
          (" Could not save options: ".toList
            ++ cstr (env.strerror (env.nvo_save w.store).2) ++ " ".toList)
      else ⟨(env.nvo_save w.store).1, w.colour, w.trace ++ [Event.nvo_save]⟩).store =
      (env.nvo_save w.store).1 ∧
    store_calls (if (env.nvo_save w.store).2 ≠ 0 then
        alert env ⟨(env.nvo_save w.store).1, w.colour, w.trace ++ [Event.nvo_save]⟩
          (" Could not save options: ".toList
            ++ cstr (env.strerror (env.nvo_save w.store).2) ++ " ".toList)
      else ⟨(env.nvo_save w.store).1, w.colour, w.trace ++ [Event.nvo_save]⟩).trace =
      store_calls w.trace ++ [Event.nvo_save] ∧
    writes (if (env.nvo_save w.store).2 ≠ 0 then
        alert env ⟨(env.nvo_save w.store).1, w.colour, w.trace ++ [Event.nvo_save]⟩
          (" Could not save options: ".toList
            ++ cstr (env.strerror (env.nvo_save w.store).2) ++ " ".toList)
      else ⟨(env.nvo_save w.store).1, w.colour, w.trace ++ [Event.nvo_save]⟩).trace =
      writes w.trace ∧
    alerts (if (env.nvo_save w.store).2 ≠ 0 then
        alert env ⟨(env.nvo_save w.store).1, w.colour, w.trace ++ [Event.nvo_save]⟩
          (" Could not save options: ".toList
            ++ cstr (env.strerror (env.nvo_save w.store).2) ++ " ".toList)
      else ⟨(env.nvo_save w.store).1, w.colour, w.trace ++ [Event.nvo_save]⟩).trace =
      alerts w.trace + (if (env.nvo_save w.store).2 ≠ 0 then 1 else 0) := by
  have h := maybe_alert_frame env
    ⟨(env.nvo_save w.store).1, w.colour, w.trace ++ [Event.nvo_save]⟩ (env.nvo_save w.store).2
    (" Could not save options: ".toList
      ++ cstr (env.strerror (env.nvo_save w.store).2) ++ " ".toList)
  refine ⟨h.1, h.2.1.trans ?_, h.2.2.1.trans ?_, h.2.2.2.trans ?_⟩
  · simp [store_calls, Event.is_store_call]
  · simp [writes, Event.is_set_setting]
  · simp [alerts, Event.is_alert]

theorem iteration_save (env : Env σ β) (context : Nat) (st : LoopState σ β)
    (he : st.widget.editing = 0) :
    ∃ st1 : LoopState σ β,
      iteration env context st env.CTRL_S = Step.ret (env.nvo_save st.world.store).2 st1 ∧
      st1.current = st.current ∧ st1.widget = st.widget ∧
      st1.world.store = (env.nvo_save st.world.store).1 ∧
      store_calls st1.world.trace = store_calls st.world.trace ++ [Event.nvo_save] ∧
      writes st1.world.trace = writes st.world.trace ∧
      alerts st1.world.trace =
        alerts st.world.trace + (if (env.nvo_save st.world.store).2 ≠ 0 then 1 else 0) := by
  have hb := before_key_calls env st env.CTRL_S
  have hs := save_key_world env ((redraw env st).world.emit (Event.getkey env.CTRL_S))
  have hk := handle_key_save env context
    { world := (redraw env st).world.emit (Event.getkey env.CTRL_S), widget := st.widget,
      current := st.current } he
  rw [← iteration_eq] at hk
  rw [hb.1] at hs hk
  rw [hb.2.2.1, hb.2.2.2.1, hb.2.2.2.2] at hs
  exact ⟨_, hk, rfl, rfl, hs.1, hs.2.1, hs.2.2.1, hs.2.2.2⟩

/-- C5: in Browse mode the key CTRL_S ends `main_loop` in that iteration
with the result of `nvo_save`, zero or not, and `settings_ui` returns that
same value.  The iteration calls `nvo_save` once and makes no other call to
the store, no `set_setting` in particular; an alert is raised exactly when
the result is not zero; focus and widget are left as they were. -/
theorem save_key_ends_session (env : Env σ β) (context : Nat) (st : LoopState σ β)
    (keys : List Int) (he : st.widget.editing = 0) :
    (∃ st1 : LoopState σ β,
      iteration env context st env.CTRL_S = Step.ret (env.nvo_save st.world.store).2 st1 ∧
      loop env context st (env.CTRL_S :: keys) =
        Outcome.returned (env.nvo_save st.world.store).2 st1 ∧
      st1.current = st.current ∧ st1.widget = st.widget ∧
      st1.world.store = (env.nvo_save st.world.store).1 ∧
      store_calls st1.world.trace = store_calls st.world.trace ++ [Event.nvo_save] ∧
      writes st1.world.trace = writes st.world.trace ∧
      alerts st1.world.trace =
        alerts st.world.trace + (if (env.nvo_save st.world.store).2 ≠ 0 then 1 else 0)) ∧
    (∀ (w : World σ β) (widget : setting_widget β) (pre : List Int) (stb : LoopState σ β),
      main_loop env context (settings_ui_init w) widget pre = Outcome.blocked stb →
      stb.widget.editing = 0 →
      (settings_ui env context w widget (pre ++ env.CTRL_S :: keys)).1 =
        some (env.nvo_save stb.world.store).2) := by
  constructor
  · obtain ⟨st1, h1, h2⟩ := iteration_save env context st he
    refine ⟨st1, h1, ?_, h2⟩
    simp only [loop, h1]
  · intro w widget pre stb hb hbe
    obtain ⟨st2, h1, h2⟩ := loop_blocked env context pre _ stb hb
    have f := redraw_frame env st2
    rw [h1, f.1] at hbe
    obtain ⟨st1, h3, -⟩ := iteration_save env context st2 hbe
    have h4 : main_loop env context (settings_ui_init w) widget (pre ++ env.CTRL_S :: keys) =
        Outcome.returned (env.nvo_save st2.world.store).2 st1 := by
      unfold main_loop
      rw [h2]
      simp only [loop, h3]
    simp only [settings_ui, h4]
    rw [h1, f.2.2.1]

/-- The demo session in Browse mode: CTRL_S as the first key. -/
theorem save_key_ends_session_witness :
    demo_state.widget.editing = 0 ∧
    (∃ st1 : LoopState (List (List Char)) Nat,
      loop demo_env 7 demo_state [demo_env.CTRL_S] =
        Outcome.returned (demo_env.nvo_save demo_state.world.store).2 st1) ∧
    (demo_env.nvo_save demo_state.world.store).2 = 0 :=
  ⟨by decide,
   (save_key_ends_session demo_env 7 demo_state [] (by decide)).1.imp (fun _ h => h.2.1),
   by decide⟩

/-! ## Browse mode -/

theorem usub_one (n : Nat) (h1 : 1 ≤ n) (h : n < 2147483648) : usub (n % U32) 1 = n - 1 := by
  unfold usub U32
  omega

theorem usub_pred (c : Nat) (h1 : 0 < c) (h : c < U32) : usub c 1 = c - 1 := by
  unfold usub U32 at *
  omega

theorem move_focus_same (env : Env σ β) (context : Nat) (st : LoopState σ β) :
    move_focus env context st st.current = st := by
  simp [move_focus]

theorem move_focus_ne (env : Env σ β) (context : Nat) (st : LoopState σ β) (next : Nat)
    (h : next ≠ st.current) :
    move_focus env context st next =
      { world := (init_setting_index env (draw_setting env st.world st.widget).1 context next).1,
        widget := (init_setting_index env (draw_setting env st.world st.widget).1 context next).2,
        current := next } := by
  simp [move_focus, h]

theorem init_setting_index_frame (env : Env σ β) (w : World σ β) (context index : Nat) :
    (init_setting_index env w context index).2.context = context ∧
    (init_setting_index env w context index).2.setting = some index ∧
    (init_setting_index env w context index).2.row = (SETTINGS_LIST_ROW + index) % U32 ∧
    (init_setting_index env w context index).2.col = SETTINGS_LIST_COL ∧
    (init_setting_index env w context index).2.editing = 0 ∧
    (init_setting_index env w context index).1.store = w.store ∧
    (init_setting_index env w context index).1.colour = w.colour := by
  have h := load_setting_frame env w
    { context := context, setting := some index, row := (SETTINGS_LIST_ROW + index) % U32,
      col := SETTINGS_LIST_COL, editbox := env.zero_editbox, editing := 0,
      value := List.replicate sizeof_widget_value NUL }
  exact ⟨h.2.1, h.2.2.1, h.2.2.2.1, h.2.2.2.2.1, h.1, h.2.2.2.2.2.1, h.2.2.2.2.2.2⟩

theorem init_setting_index_value (env : Env σ β) (w : World σ β) (context index : Nat) :
    cstr (init_setting_index env w context index).2.value =
      (if (env.show_setting w.store context (some index)
            (List.replicate sizeof_widget_value NUL) sizeof_widget_value).1 ≠ 0 then []
       else cstr (env.show_setting w.store context (some index)
            (List.replicate sizeof_widget_value NUL) sizeof_widget_value).2) :=
  load_setting_value env w
    { context := context, setting := some index, row := (SETTINGS_LIST_ROW + index) % U32,
      col := SETTINGS_LIST_COL, editbox := env.zero_editbox, editing := 0,
      value := List.replicate sizeof_widget_value NUL }

theorem init_setting_index_trace (env : Env σ β) (w : World σ β) (context index : Nat) :
    (init_setting_index env w context index).1.trace =
      w.trace ++
        [Event.show_setting context (some index) sizeof_widget_value,
         Event.init_editbox (init_setting_index env w context index).2.value sizeof_widget_value
           ((SETTINGS_LIST_ROW + index) % U32) ((SETTINGS_LIST_COL + 17) % U32) 60] :=
  (load_setting_trace env w
    { context := context, setting := some index, row := (SETTINGS_LIST_ROW + index) % U32,
      col := SETTINGS_LIST_COL, editbox := env.zero_editbox, editing := 0,
      value := List.replicate sizeof_widget_value NUL }).1

theorem init_setting_index_calls (env : Env σ β) (w : World σ β) (context index : Nat) :
    store_calls (init_setting_index env w context index).1.trace =
      store_calls w.trace ++ [Event.show_setting context (some index) sizeof_widget_value] ∧
    writes (init_setting_index env w context index).1.trace = writes w.trace ∧
    alerts (init_setting_index env w context index).1.trace = alerts w.trace :=
  load_setting_calls env w
    { context := context, setting := some index, row := (SETTINGS_LIST_ROW + index) % U32,
      col := SETTINGS_LIST_COL, editbox := env.zero_editbox, editing := 0,
      value := List.replicate sizeof_widget_value NUL }

theorem handle_key_at_boundary (env : Env σ β) (context : Nat) (st : LoopState σ β)
    (key : Int) (hN : 1 ≤ env.config_settings.length) (he : st.widget.editing = 0)
    (hkey : key = env.KEY_DOWN ∧ st.current = env.config_settings.length - 1 ∨
      key = env.KEY_UP ∧ st.current = 0) :
    handle_key env context st key = Step.next st := by
  rcases hkey with ⟨hk, hcur⟩ | ⟨hk, hcur⟩
  · rw [hk, handle_key_down env context st he]
    have h1 : ¬ st.current < usub (NUM_SETTINGS env) 1 := by
      unfold NUM_SETTINGS
      rw [usub_one _ hN env.table_fits, hcur]
      exact lt_irrefl _
    rw [if_neg h1, move_focus_same]
  · rw [hk, handle_key_up env context st he]
    have h1 : ¬ st.current > 0 := by
      rw [hcur]
      exact lt_irrefl _
    rw [if_neg h1, move_focus_same]

/-- C10: for a table of at least one setting, in Browse mode, KEY_DOWN with
the focus on the last setting and KEY_UP with the focus on the first leave
the whole state of the loop as it was when the key was read: focus index,
widget and world; the iteration that reads the key makes no call to the
store. -/
theorem boundary_key_no_effect (env : Env σ β) (context : Nat) (st : LoopState σ β)
    (key : Int) (hN : 1 ≤ env.config_settings.length) (he : st.widget.editing = 0)
    (hkey : key = env.KEY_DOWN ∧ st.current = env.config_settings.length - 1 ∨
      key = env.KEY_UP ∧ st.current = 0) :
    handle_key env context st key = Step.next st ∧
    ∃ st1 : LoopState σ β,
      iteration env context st key = Step.next st1 ∧
      st1.current = st.current ∧ st1.widget = st.widget ∧
      st1.world.store = st.world.store ∧
      store_calls st1.world.trace = store_calls st.world.trace := by
  refine ⟨handle_key_at_boundary env context st key hN he hkey, _,
    handle_key_at_boundary env context
      { world := (redraw env st).world.emit (Event.getkey key), widget := st.widget,
        current := st.current } key hN he hkey, rfl, rfl, ?_, ?_⟩
  · exact (before_key_calls env st key).1
  · exact (before_key_calls env st key).2.2.1

/-- The demo state with the focus on the first setting, and KEY_UP. -/
theorem boundary_key_no_effect_witness :
    1 ≤ demo_env.config_settings.length ∧ demo_state.widget.editing = 0 ∧
    (demo_env.KEY_UP = demo_env.KEY_UP ∧ demo_state.current = 0) ∧
    handle_key demo_env 7 demo_state demo_env.KEY_UP = Step.next demo_state :=
  ⟨by decide, by decide, ⟨rfl, rfl⟩,
   (boundary_key_no_effect demo_env 7 demo_state demo_env.KEY_UP (by decide) (by decide)
      (Or.inr ⟨rfl, rfl⟩)).1⟩

/-- C11: in Browse mode a key other than KEY_DOWN, KEY_UP and CTRL_S is
passed to the line editor by `edit_setting`: the step makes the one call
`edit_editbox` with that key, leaves the widget editing, with focus index
and binding as they were and the box and buffer as the editor left them,
and the loop goes on. -/
theorem browse_key_starts_edit (env : Env σ β) (context : Nat) (st : LoopState σ β)
    (key : Int) (he : st.widget.editing = 0)
    (h1 : key ≠ env.KEY_DOWN) (h2 : key ≠ env.KEY_UP) (h3 : key ≠ env.CTRL_S) :
    ∃ st1 : LoopState σ β,
      handle_key env context st key = Step.next st1 ∧
      st1.widget.editing = 1 ∧
      st1.current = st.current ∧
      st1.widget.setting = st.widget.setting ∧
      st1.widget.context = st.widget.context ∧
      st1.widget.row = st.widget.row ∧ st1.widget.col = st.widget.col ∧
      st1.widget.editbox = (env.edit_editbox st.widget.editbox st.widget.value key).1 ∧
      st1.widget.value = (env.edit_editbox st.widget.editbox st.widget.value key).2.1 ∧
      st1.world.store = st.world.store ∧
      st1.world.trace =
        st.world.trace ++ [Event.edit_editbox st.widget.editbox st.widget.value key] := by
  refine ⟨_, handle_key_browse_other env context st key he h1 h2 h3, ?_⟩
  have h := move_focus_same env context
    { st with world := (edit_setting env st.world st.widget key).1,
              widget := (edit_setting env st.world st.widget key).2.1 }
  rw [h]
  exact ⟨rfl, rfl, rfl, rfl, rfl, rfl, rfl, rfl, rfl, rfl⟩

/-- The demo state in Browse mode, with the key `9`. -/
theorem browse_key_starts_edit_witness :
    demo_state.widget.editing = 0 ∧ (57 : Int) ≠ demo_env.KEY_DOWN ∧
    (57 : Int) ≠ demo_env.KEY_UP ∧ (57 : Int) ≠ demo_env.CTRL_S ∧
    ∃ st1 : LoopState (List (List Char)) Nat,
      handle_key demo_env 7 demo_state 57 = Step.next st1 ∧ st1.widget.editing = 1 :=
  ⟨by decide, by decide, by decide, by decide,
   (browse_key_starts_edit demo_env 7 demo_state 57 (by decide) (by decide) (by decide)
      (by decide)).imp (fun _ h => ⟨h.1, h.2.1⟩)⟩

theorem handle_key_edit_cases (env : Env σ β) (context : Nat) (st : LoopState σ β) (key : Int)
    (he : st.widget.editing ≠ 0) :
    ∃ st1 : LoopState σ β,
      handle_key env context st key = Step.next st1 ∧
      st1.current = st.current ∧
      st1.widget.setting = st.widget.setting ∧
      st1.widget.context = st.widget.context ∧
      st1.widget.row = st.widget.row ∧ st1.widget.col = st.widget.col := by
  by_cases h1 : (edit_setting env st.world st.widget key).2.2 = env.CR ∨
      (edit_setting env st.world st.widget key).2.2 = env.LF
  · refine ⟨_, handle_key_commit env context st key he h1, rfl, ?_⟩
    have f := load_setting_frame env
      (if (save_setting env (edit_setting env st.world st.widget key).1
                  (edit_setting env st.world st.widget key).2.1).2 ≠ 0 then
              alert env (save_setting env (edit_setting env st.world st.widget key).1
                  (edit_setting env st.world st.widget key).2.1).1
                (" Could not set ".toList
                  ++ cstr (deref env (edit_setting env st.world st.widget key).2.1.setting).name
                  ++ ": ".toList
                  ++ cstr (env.strerror (save_setting env (edit_setting env st.world st.widget key).1
                      (edit_setting env st.world st.widget key).2.1).2)
                  ++ " ".toList)
            else (save_setting env (edit_setting env st.world st.widget key).1
                  (edit_setting env st.world st.widget key).2.1).1)
      (edit_setting env st.world st.widget key).2.1
    exact ⟨f.2.2.1, f.2.1, f.2.2.2.1, f.2.2.2.2.1⟩
  · by_cases h2 : (edit_setting env st.world st.widget key).2.2 = env.CTRL_C
    · refine ⟨_, handle_key_cancel env context st key he h2, rfl, ?_⟩
      have f := load_setting_frame env (edit_setting env st.world st.widget key).1
        (edit_setting env st.world st.widget key).2.1
      exact ⟨f.2.2.1, f.2.1, f.2.2.2.1, f.2.2.2.2.1⟩
    · exact ⟨_, handle_key_edit_other env context st key he (fun h => h1 (Or.inl h))
          (fun h => h1 (Or.inr h)) h2, rfl, rfl, rfl, rfl, rfl⟩

/-- C12: while the widget is editing, a step of `main_loop` on any key,
KEY_UP, KEY_DOWN and CTRL_S included, leaves the focus index and the binding
of the widget as they were and does not return; so a step in which the
focus index changes, and a step that returns, is a step taken from Browse
mode. -/
theorem edit_mode_keeps_focus (env : Env σ β) (context : Nat) (st : LoopState σ β) (key : Int)
    (he : st.widget.editing ≠ 0) :
    (∃ st1 : LoopState σ β,
      handle_key env context st key = Step.next st1 ∧
      st1.current = st.current ∧
      st1.widget.setting = st.widget.setting ∧
      st1.widget.context = st.widget.context ∧
      st1.widget.row = st.widget.row ∧ st1.widget.col = st.widget.col) ∧
    (∃ st1 : LoopState σ β,
      iteration env context st key = Step.next st1 ∧
      st1.current = st.current ∧
      st1.widget.setting = st.widget.setting ∧
      st1.widget.context = st.widget.context ∧
      st1.widget.row = st.widget.row ∧ st1.widget.col = st.widget.col) ∧
    (∀ (s : LoopState σ β) (k : Int),
      (handle_key env context s k).state.current ≠ s.current → s.widget.editing = 0) ∧
    (∀ (s s1 : LoopState σ β) (k : Int) (rc : Int),
      handle_key env context s k = Step.ret rc s1 → s.widget.editing = 0) := by
  refine ⟨handle_key_edit_cases env context st key he, ?_, ?_, ?_⟩
  · exact handle_key_edit_cases env context
      { world := (redraw env st).world.emit (Event.getkey key), widget := st.widget,
        current := st.current } key he
  · intro s k hne
    by_contra hs
    obtain ⟨s1, h, hc, -⟩ := handle_key_edit_cases env context s k hs
    rw [h] at hne
    exact hne hc
  · intro s s1 k rc hret
    by_contra hs
    obtain ⟨s2, h, -⟩ := handle_key_edit_cases env context s k hs
    rw [h] at hret
    cases hret

/-- The demo state in Edit mode, with the key KEY_DOWN. -/
theorem edit_mode_keeps_focus_witness :
    demo_state_editing.widget.editing ≠ 0 ∧
    ∃ st1 : LoopState (List (List Char)) Nat,
      handle_key demo_env 7 demo_state_editing demo_env.KEY_DOWN = Step.next st1 ∧
      st1.current = demo_state_editing.current :=
  ⟨by decide,
   (edit_mode_keeps_focus demo_env 7 demo_state_editing demo_env.KEY_DOWN (by decide)).1.imp
     (fun _ h => ⟨h.1, h.2.1⟩)⟩

/-! ## Writes to the store -/

theorem move_focus_writes (env : Env σ β) (context : Nat) (st : LoopState σ β) (next : Nat) :
    writes (move_focus env context st next).world.trace = writes st.world.trace := by
  by_cases h : next = st.current
  · rw [h, move_focus_same]
  · rw [move_focus_ne env context st next h]
    exact ((init_setting_index_calls env _ context next).2.1).trans
      (draw_setting_calls env st.world st.widget).2.1

theorem handle_key_writes (env : Env σ β) (context : Nat) (st : LoopState σ β) (key : Int) :
    writes (handle_key env context st key).state.world.trace =
      writes st.world.trace +
        (if st.widget.editing ≠ 0 ∧
            ((env.edit_editbox st.widget.editbox st.widget.value key).2.2 = env.CR ∨
             (env.edit_editbox st.widget.editbox st.widget.value key).2.2 = env.LF)
         then 1 else 0) := by
  by_cases he : st.widget.editing = 0
  · rw [if_neg (fun h => h.1 he), Nat.add_zero]
    by_cases h1 : key = env.KEY_DOWN
    · rw [h1, handle_key_down env context st he]
      exact move_focus_writes env context st _
    · by_cases h2 : key = env.KEY_UP
      · rw [h2, handle_key_up env context st he]
        exact move_focus_writes env context st _
      · by_cases h3 : key = env.CTRL_S
        · rw [h3, handle_key_save env context st he]
          exact (save_key_world env st.world).2.2.1
        · rw [handle_key_browse_other env context st key he h1 h2 h3]
          exact (move_focus_writes env context _ _).trans
            (edit_setting_calls env st.world st.widget key).2.1
  · by_cases h1 : (env.edit_editbox st.widget.editbox st.widget.value key).2.2 = env.CR ∨
        (env.edit_editbox st.widget.editbox st.widget.value key).2.2 = env.LF
    · rw [if_pos ⟨he, h1⟩, handle_key_commit env context st key he h1]
      show writes (load_setting env _ _).1.trace = _
      rw [(load_setting_calls env _ _).2.1, (maybe_alert_frame env _ _ _).2.2.1,
        (save_setting_calls env _ _).2.1, (edit_setting_calls env _ _ _).2.1]
    · rw [if_neg (fun h => h1 h.2), Nat.add_zero]
      by_cases h2 : (env.edit_editbox st.widget.editbox st.widget.value key).2.2 = env.CTRL_C
      · rw [handle_key_cancel env context st key he h2]
        show writes (load_setting env _ _).1.trace = _
        rw [(load_setting_calls env _ _).2.1, (edit_setting_calls env _ _ _).2.1]
      · rw [handle_key_edit_other env context st key he (fun h => h1 (Or.inl h))
          (fun h => h1 (Or.inr h)) h2]
        exact (edit_setting_calls env st.world st.widget key).2.1

/-- C18: a step of `main_loop` calls `set_setting` once if the widget was
editing when the key was read and the line editor returned CR or LF for it,
and not at all otherwise.  In Browse mode CR or LF only puts the widget in
Edit mode, with no call to the store; in Edit mode a result of the editor
other than CR, LF and CTRL_C, zero included, makes no call to the store and
leaves the widget editing. -/
theorem write_iff_commit (env : Env σ β) (context : Nat) (st : LoopState σ β) (key : Int) :
    writes (iteration env context st key).state.world.trace =
      writes st.world.trace +
        (if st.widget.editing ≠ 0 ∧
            ((env.edit_editbox st.widget.editbox st.widget.value key).2.2 = env.CR ∨
             (env.edit_editbox st.widget.editbox st.widget.value key).2.2 = env.LF)
         then 1 else 0) ∧
    (st.widget.editing = 0 → key = env.CR ∨ key = env.LF →
      ∃ st1 : LoopState σ β,
        iteration env context st key = Step.next st1 ∧
        st1.widget.editing = 1 ∧ st1.current = st.current ∧
        st1.world.store = st.world.store ∧
        store_calls st1.world.trace = store_calls st.world.trace) ∧
    (st.widget.editing ≠ 0 →
      (env.edit_editbox st.widget.editbox st.widget.value key).2.2 ≠ env.CR →
      (env.edit_editbox st.widget.editbox st.widget.value key).2.2 ≠ env.LF →
      (env.edit_editbox st.widget.editbox st.widget.value key).2.2 ≠ env.CTRL_C →
      ∃ st1 : LoopState σ β,
        iteration env context st key = Step.next st1 ∧
        st1.widget.editing = 1 ∧ st1.current = st.current ∧
        st1.world.store = st.world.store ∧
        store_calls st1.world.trace = store_calls st.world.trace) := by
  have hb := before_key_calls env st key
  refine ⟨?_, ?_, ?_⟩
  · rw [iteration_eq, handle_key_writes, hb.2.2.2.1]
  · intro he hk
    have hd := keys_ne env
    have h1 : key ≠ env.KEY_DOWN := by
      rcases hk with h | h <;> rw [h]
      · exact hd.2.2.2.2.2.2.2.1
      · exact hd.2.2.2.2.2.2.2.2.2.2.1
    have h2 : key ≠ env.KEY_UP := by
      rcases hk with h | h <;> rw [h]
      · exact hd.2.2.2.2.2.2.2.2.1
      · exact hd.2.2.2.2.2.2.2.2.2.2.2.1
    have h3 : key ≠ env.CTRL_S := by
      rcases hk with h | h <;> rw [h]
      · exact hd.2.2.2.2.2.2.1
      · exact hd.2.2.2.2.2.2.2.2.2.1
    refine ⟨{ world := (edit_setting env ((redraw env st).world.emit (Event.getkey key))
                  st.widget key).1,
              widget := (edit_setting env ((redraw env st).world.emit (Event.getkey key))
                  st.widget key).2.1,
              current := st.current }, ?_, rfl, rfl, hb.1, ?_⟩
    · rw [iteration_eq]
      exact (handle_key_browse_other env context
        { world := (redraw env st).world.emit (Event.getkey key), widget := st.widget,
          current := st.current } key he h1 h2 h3).trans
        (congrArg Step.next (move_focus_same env context _))
    · exact (edit_setting_calls env _ st.widget key).1.trans hb.2.2.1
  · intro he h1 h2 h3
    refine ⟨{ world := (edit_setting env ((redraw env st).world.emit (Event.getkey key))
                  st.widget key).1,
              widget := (edit_setting env ((redraw env st).world.emit (Event.getkey key))
                  st.widget key).2.1,
              current := st.current }, ?_, rfl, rfl, hb.1, ?_⟩
    · rw [iteration_eq]
      exact handle_key_edit_other env context _ key he h1 h2 h3
    · exact (edit_setting_calls env _ st.widget key).1.trans hb.2.2.1

/-! ## Moving the focus -/

theorem handle_key_move (env : Env σ β) (context : Nat) (st : LoopState σ β) (key : Int)
    (next : Nat) (hN : 1 ≤ env.config_settings.length) (he : st.widget.editing = 0)
    (hkey : key = env.KEY_DOWN ∧ st.current < env.config_settings.length - 1 ∧
        next = st.current + 1 ∨
      key = env.KEY_UP ∧ 0 < st.current ∧ st.current ≤ env.config_settings.length - 1 ∧
        next = st.current - 1) :
    handle_key env context st key =
      Step.next
        { world := (init_setting_index env (draw_setting env st.world st.widget).1 context
            next).1,
          widget := (init_setting_index env (draw_setting env st.world st.widget).1 context
            next).2,
          current := next } ∧
    next ≤ env.config_settings.length - 1 := by
  have hfit := env.table_fits
  rcases hkey with ⟨hk, hc, hn⟩ | ⟨hk, hc, hc2, hn⟩
  · have h1 : st.current < usub (NUM_SETTINGS env) 1 := by
      unfold NUM_SETTINGS
      rw [usub_one _ hN hfit]
      exact hc
    have h2 : (st.current + 1) % U32 = next := by
      rw [hn]
      unfold U32
      omega
    rw [hk, handle_key_down env context st he, if_pos h1, h2,
      move_focus_ne env context st next (by omega)]
    exact ⟨rfl, by omega⟩
  · have h2 : usub st.current 1 = next := by
      rw [hn]
      exact usub_pred _ hc (by unfold U32; omega)
    rw [hk, handle_key_up env context st he, if_pos hc, h2,
      move_focus_ne env context st next (by omega)]
    exact ⟨rfl, by omega⟩

/-- C9: for a table of at least one setting, in Browse mode with the focus
on index `c`, KEY_DOWN with `c < N - 1` moves the focus to `c + 1` and KEY_UP
with `c > 0` moves it to `c - 1`.  In that iteration, after the key is read,
the old widget is drawn once more while the colour pair is CPAIR_NORMAL, and
then `init_setting_index` builds the widget of the new index: bound to that
setting at row `3 + index`, column 1, not editing, its value read from the
store (the empty string when the read fails).  The redraw of the next
iteration draws the new widget with CPAIR_SELECT. -/
theorem focus_move_step (env : Env σ β) (context : Nat) (st : LoopState σ β) (key : Int)
    (next : Nat) (hN : 1 ≤ env.config_settings.length) (he : st.widget.editing = 0)
    (hkey : key = env.KEY_DOWN ∧ st.current < env.config_settings.length - 1 ∧
        next = st.current + 1 ∨
      key = env.KEY_UP ∧ 0 < st.current ∧ st.current ≤ env.config_settings.length - 1 ∧
        next = st.current - 1) :
    ∃ st1 : LoopState σ β,
      iteration env context st key = Step.next st1 ∧
      st1.current = next ∧
      st1.widget.context = context ∧ st1.widget.setting = some next ∧
      st1.widget.row = SETTINGS_LIST_ROW + next ∧ st1.widget.col = SETTINGS_LIST_COL ∧
      st1.widget.editing = 0 ∧
      cstr st1.widget.value =
        (if (env.show_setting st.world.store context (some next)
              (List.replicate sizeof_widget_value NUL) sizeof_widget_value).1 ≠ 0 then []
         else cstr (env.show_setting st.world.store context (some next)
              (List.replicate sizeof_widget_value NUL) sizeof_widget_value).2) ∧
      st1.world.store = st.world.store ∧
      (∃ curs : Nat,
        st1.world.trace =
          (redraw env st).world.trace ++
            [Event.getkey key,
             Event.mvprintw CPAIR_NORMAL st.widget.row st.widget.col
               (row_text (deref env st.widget.setting).name st.widget.value),
             Event.move st.widget.row curs,
             Event.show_setting context (some next) sizeof_widget_value,
             Event.init_editbox st1.widget.value sizeof_widget_value
               (SETTINGS_LIST_ROW + next) (SETTINGS_LIST_COL + 17) 60]) ∧
      (∃ rows : List (Event β), ∃ curs : Nat,
        store_calls rows = [] ∧
        (redraw env st1).world.trace =
          st1.world.trace ++ rows ++
            [Event.color_set CPAIR_SELECT,
             Event.mvprintw CPAIR_SELECT (SETTINGS_LIST_ROW + next) SETTINGS_LIST_COL
               (row_text (deref env (some next)).name st1.widget.value),
             Event.move (SETTINGS_LIST_ROW + next) curs,
             Event.color_set CPAIR_NORMAL]) := by
  have hfit := env.table_fits
  have hb := before_key_calls env st key
  obtain ⟨hstep, hle⟩ := handle_key_move env context
    { world := (redraw env st).world.emit (Event.getkey key), widget := st.widget,
      current := st.current } key next hN he hkey
  have hrow : (SETTINGS_LIST_ROW + next) % U32 = SETTINGS_LIST_ROW + next := by
    unfold U32 SETTINGS_LIST_ROW
    omega
  have hcol : (SETTINGS_LIST_COL + 17) % U32 = SETTINGS_LIST_COL + 17 := by decide
  have f := init_setting_index_frame env
    (draw_setting env ((redraw env st).world.emit (Event.getkey key)) st.widget).1 context next
  have hstore : (draw_setting env ((redraw env st).world.emit (Event.getkey key))
      st.widget).1.store = st.world.store := (draw_setting_store env _ _).trans hb.1
  refine ⟨_, hstep, rfl, f.1, f.2.1, f.2.2.1.trans hrow, f.2.2.2.1, f.2.2.2.2.1, ?_, ?_, ?_, ?_⟩
  · rw [init_setting_index_value, hstore]
  · exact f.2.2.2.2.2.1.trans hstore
  · refine ⟨(st.widget.col + 17 +
      min (strlen (if st.widget.value.headD NUL = NUL then not_specified
        else st.widget.value)) 60) % U32, ?_⟩
    rw [init_setting_index_trace, draw_setting_trace, if_neg (not_not.mpr he), hb.2.1, hrow,
      hcol]
    simp only [World.emit, List.append_assoc, List.singleton_append, List.cons_append,
      List.nil_append, List.append_nil]
  · obtain ⟨rows, h1, -, -, h⟩ := redraw_trace env
      { world := (init_setting_index env (draw_setting env
            ((redraw env st).world.emit (Event.getkey key)) st.widget).1 context next).1,
        widget := (init_setting_index env (draw_setting env
            ((redraw env st).world.emit (Event.getkey key)) st.widget).1 context next).2,
        current := next }
    refine ⟨rows, (SETTINGS_LIST_COL + 17 +
      min (strlen (if (init_setting_index env (draw_setting env
            ((redraw env st).world.emit (Event.getkey key)) st.widget).1 context
              next).2.value.headD NUL = NUL then not_specified
        else (init_setting_index env (draw_setting env
            ((redraw env st).world.emit (Event.getkey key)) st.widget).1 context
              next).2.value)) 60) % U32, h1, ?_⟩
    rw [h]
    simp only [f.2.2.2.2.1, f.2.1, f.2.2.1, f.2.2.2.1, hrow, ne_eq, not_true_eq_false, if_false,
      List.append_nil, List.append_assoc, List.singleton_append, List.cons_append,
      List.nil_append]

/-- The demo state with the focus on the first setting, and KEY_DOWN. -/
theorem focus_move_step_witness :
    1 ≤ demo_env.config_settings.length ∧ demo_state.widget.editing = 0 ∧
    (demo_env.KEY_DOWN = demo_env.KEY_DOWN ∧
      demo_state.current < demo_env.config_settings.length - 1 ∧ 1 = demo_state.current + 1) ∧
    ∃ st1 : LoopState (List (List Char)) Nat,
      iteration demo_env 7 demo_state demo_env.KEY_DOWN = Step.next st1 ∧ st1.current = 1 :=
  ⟨by decide, by decide, ⟨rfl, by decide, rfl⟩,
   (focus_move_step demo_env 7 demo_state demo_env.KEY_DOWN 1 (by decide) (by decide)
      (Or.inl ⟨rfl, by decide, rfl⟩)).imp (fun _ h => ⟨h.1, h.2.1⟩)⟩

/-! ## The initial screen -/

theorem draw_all_count_eq (env : Env σ β) (hN : 1 ≤ env.config_settings.length) :
    draw_all_count env = env.config_settings.length := by
  have hfit := env.table_fits
  unfold draw_all_count NUM_SETTINGS
  rw [usub_one _ hN hfit]
  unfold to_int U32
  split_ifs <;> omega

theorem init_setting_index_congr (env : Env σ β) (w1 w2 : World σ β) (context index : Nat)
    (h : w1.store = w2.store) :
    (init_setting_index env w1 context index).2 = (init_setting_index env w2 context index).2 := by
  unfold init_setting_index init_setting load_setting
  simp only [h]

theorem draw_all_trace (env : Env σ β) (context : Nat) (w0 : World σ β) (n : Nat) :
    ∀ s : World σ β × setting_widget β, n ≤ 2147483648 → s.1.store = w0.store →
      (draw_all env context n s).1.trace =
        s.1.trace ++ (List.range n).reverse.flatMap (fun i =>
          [Event.show_setting context (some i) sizeof_widget_value,
           Event.init_editbox (init_setting_index env w0 context i).2.value sizeof_widget_value
             (SETTINGS_LIST_ROW + i) (SETTINGS_LIST_COL + 17) 60,
           Event.mvprintw s.1.colour (SETTINGS_LIST_ROW + i) SETTINGS_LIST_COL
             (row_text (deref env (some i)).name (init_setting_index env w0 context i).2.value),
           Event.move (SETTINGS_LIST_ROW + i)
             ((SETTINGS_LIST_COL + 17 +
               min (strlen (if (init_setting_index env w0 context i).2.value.headD NUL = NUL
                 then not_specified else (init_setting_index env w0 context i).2.value)) 60)
               % U32)]) ∧
      (draw_all env context n s).1.store = w0.store ∧
      (draw_all env context n s).1.colour = s.1.colour ∧
      (1 ≤ n → (draw_all env context n s).2 = (init_setting_index env w0 context 0).2) ∧
      (n = 0 → (draw_all env context n s).2 = s.2) := by
  induction n with
  | zero =>
    intro s _ hs
    exact ⟨by simp [draw_all], hs, rfl, fun h => absurd h (by decide), fun _ => rfl⟩
  | succ n ih =>
    intro s hn hs
    have hmod : n % U32 = n := by unfold U32; omega
    have hrow : (SETTINGS_LIST_ROW + n) % U32 = SETTINGS_LIST_ROW + n := by
      unfold U32 SETTINGS_LIST_ROW; omega
    have hcol : (SETTINGS_LIST_COL + 17) % U32 = SETTINGS_LIST_COL + 17 := by decide
    have f := init_setting_index_frame env s.1 context n
    have c := init_setting_index_congr env s.1 w0 context n hs
    have hst : (draw_setting env (init_setting_index env s.1 context n).1
        (init_setting_index env s.1 context n).2).1.store = w0.store :=
      (draw_setting_store env _ _).trans (f.2.2.2.2.2.1.trans hs)
    obtain ⟨h1, h2, h3, h4, h5⟩ := ih (draw_setting env (init_setting_index env s.1 context n).1
      (init_setting_index env s.1 context n).2) (by omega) hst
    have hcolour : (draw_setting env (init_setting_index env s.1 context n).1
        (init_setting_index env s.1 context n).2).1.colour = s.1.colour :=
      (draw_setting_colour env _ _).trans f.2.2.2.2.2.2
    simp only [draw_all, hmod]
    refine ⟨?_, h2, h3.trans hcolour, fun _ => ?_, fun h => absurd h (by omega)⟩
    · rw [h1, hcolour, draw_setting_trace, init_setting_index_trace, f.2.2.2.2.1, f.2.1,
        f.2.2.1, f.2.2.2.1, f.2.2.2.2.2.2, if_neg (not_not.mpr rfl), hrow, hcol, c,
        List.range_succ, List.reverse_append, List.reverse_singleton, List.singleton_append,
        List.flatMap_cons]
      simp only [List.append_assoc, List.singleton_append, List.cons_append, List.nil_append,
        List.append_nil]
    · rcases Nat.eq_zero_or_pos n with hz | hp
      · rw [h5 hz]
        subst hz
        exact c
      · exact h4 hp

theorem main_init_eq (env : Env σ β) (context : Nat) (w : World σ β)
    (widget : setting_widget β) :
    main_init env context w widget =
      { world := (draw_all env context (draw_all_count env)
          (color_set (draw_title_row env w) CPAIR_NORMAL, widget)).1,
        widget := (draw_all env context (draw_all_count env)
          (color_set (draw_title_row env w) CPAIR_NORMAL, widget)).2,
        current := 0 } :=
  rfl

/-- C13: for a table of `N >= 1` settings, before the first key is read
`main_loop` has drawn the title, set the colour pair CPAIR_NORMAL, and then
for each index `N - 1, N - 2, ..., 0` in this order, once each, read the
value of that setting from the store, initialised the edit box and printed
the widget at row `3 + index`, column 1.  The loop is entered with focus
index 0 and the widget bound to setting 0 at row 3, column 1, not editing,
its value the one read from the store (the empty string when the read
fails); the store is as it was. -/
theorem initial_screen (env : Env σ β) (context : Nat) (w : World σ β)
    (widget : setting_widget β) (hN : 1 ≤ env.config_settings.length) :
    draw_all_count env = env.config_settings.length ∧
    (main_init env context w widget).world.trace =
      ((draw_title_row env w).trace ++ [Event.color_set CPAIR_NORMAL]) ++
        (List.range env.config_settings.length).reverse.flatMap (fun i =>
          [Event.show_setting context (some i) sizeof_widget_value,
           Event.init_editbox (init_setting_index env w context i).2.value sizeof_widget_value
             (SETTINGS_LIST_ROW + i) (SETTINGS_LIST_COL + 17) 60,
           Event.mvprintw CPAIR_NORMAL (SETTINGS_LIST_ROW + i) SETTINGS_LIST_COL
             (row_text (deref env (some i)).name (init_setting_index env w context i).2.value),
           Event.move (SETTINGS_LIST_ROW + i)
             ((SETTINGS_LIST_COL + 17 +
               min (strlen (if (init_setting_index env w context i).2.value.headD NUL = NUL
                 then not_specified else (init_setting_index env w context i).2.value)) 60)
               % U32)]) ∧
    store_calls (draw_title_row env w).trace = store_calls w.trace ∧
    (main_init env context w widget).world.store = w.store ∧
    (main_init env context w widget).current = 0 ∧
    (main_init env context w widget).widget.context = context ∧
    (main_init env context w widget).widget.setting = some 0 ∧
    (main_init env context w widget).widget.row = SETTINGS_LIST_ROW ∧
    (main_init env context w widget).widget.col = SETTINGS_LIST_COL ∧
    (main_init env context w widget).widget.editing = 0 ∧
    cstr (main_init env context w widget).widget.value =
      (if (env.show_setting w.store context (some 0)
            (List.replicate sizeof_widget_value NUL) sizeof_widget_value).1 ≠ 0 then []
       else cstr (env.show_setting w.store context (some 0)
            (List.replicate sizeof_widget_value NUL) sizeof_widget_value).2) := by
  have hfit := env.table_fits
  have hc := draw_all_count_eq env hN
  obtain ⟨h1, h2, -, h4, -⟩ := draw_all_trace env context w (draw_all_count env)
    (color_set (draw_title_row env w) CPAIR_NORMAL, widget) (by omega) rfl
  have f := init_setting_index_frame env w context 0
  rw [main_init_eq]
  refine ⟨hc, ?_, ?_, h2, rfl, ?_, ?_, ?_, ?_, ?_, ?_⟩
  · rw [h1, hc]
    rfl
  · simp [draw_title_row, msg_trace, World.emit, store_calls, Event.is_store_call]
  · exact (congrArg setting_widget.context (h4 (by omega))).trans f.1
  · exact (congrArg setting_widget.setting (h4 (by omega))).trans f.2.1
  · exact (congrArg setting_widget.row (h4 (by omega))).trans f.2.2.1
  · exact (congrArg setting_widget.col (h4 (by omega))).trans f.2.2.2.1
  · exact (congrArg setting_widget.editing (h4 (by omega))).trans f.2.2.2.2.1
  · exact (congrArg (fun x => cstr x.value) (h4 (by omega))).trans
      (init_setting_index_value env w context 0)

/-- The demo environment: three settings. -/
theorem initial_screen_witness :
    1 ≤ demo_env.config_settings.length ∧
    draw_all_count demo_env = 3 ∧
    (main_init demo_env 7 demo_world demo_widget).current = 0 ∧
    (main_init demo_env 7 demo_world demo_widget).widget.setting = some 0 :=
  ⟨by decide, (initial_screen demo_env 7 demo_world demo_widget (by decide)).1,
   (initial_screen demo_env 7 demo_world demo_widget (by decide)).2.2.2.2.1,
   (initial_screen demo_env 7 demo_world demo_widget (by decide)).2.2.2.2.2.2.1⟩

/-! ## Invariants of the loop -/

theorem handle_key_inv (env : Env σ β) (context : Nat) (st : LoopState σ β) (key : Int)
    (hN : 1 ≤ env.config_settings.length)
    (h : st.current ≤ env.config_settings.length - 1 ∧ st.widget.context = context ∧
      st.widget.setting = some st.current ∧
      st.widget.row = SETTINGS_LIST_ROW + st.current ∧ st.widget.col = SETTINGS_LIST_COL) :
    (handle_key env context st key).state.current ≤ env.config_settings.length - 1 ∧
    (handle_key env context st key).state.widget.context = context ∧
    (handle_key env context st key).state.widget.setting =
      some (handle_key env context st key).state.current ∧
    (handle_key env context st key).state.widget.row =
      SETTINGS_LIST_ROW + (handle_key env context st key).state.current ∧
    (handle_key env context st key).state.widget.col = SETTINGS_LIST_COL := by
  have hfit := env.table_fits
  have moved : ∀ next : Nat, next ≤ env.config_settings.length - 1 →
      (init_setting_index env (draw_setting env st.world st.widget).1 context
          next).2.context = context ∧
      (init_setting_index env (draw_setting env st.world st.widget).1 context
          next).2.setting = some next ∧
      (init_setting_index env (draw_setting env st.world st.widget).1 context
          next).2.row = SETTINGS_LIST_ROW + next ∧
      (init_setting_index env (draw_setting env st.world st.widget).1 context
          next).2.col = SETTINGS_LIST_COL := by
    intro next hle
    have f := init_setting_index_frame env (draw_setting env st.world st.widget).1 context next
    have hrow : (SETTINGS_LIST_ROW + next) % U32 = SETTINGS_LIST_ROW + next := by
      unfold U32 SETTINGS_LIST_ROW; omega
    exact ⟨f.1, f.2.1, f.2.2.1.trans hrow, f.2.2.2.1⟩
  by_cases he : st.widget.editing = 0
  · by_cases h1 : key = env.KEY_DOWN
    · by_cases hc : st.current < env.config_settings.length - 1
      · obtain ⟨hs, hle⟩ := handle_key_move env context st key (st.current + 1) hN he
          (Or.inl ⟨h1, hc, rfl⟩)
        rw [hs]
        exact ⟨hle, moved _ hle⟩
      · rw [handle_key_at_boundary env context st key hN he (Or.inl ⟨h1, by omega⟩)]
        exact h
    · by_cases h2 : key = env.KEY_UP
      · by_cases hc : 0 < st.current
        · obtain ⟨hs, hle⟩ := handle_key_move env context st key (st.current - 1) hN he
            (Or.inr ⟨h2, hc, h.1, rfl⟩)
          rw [hs]
          exact ⟨hle, moved _ hle⟩
        · rw [handle_key_at_boundary env context st key hN he (Or.inr ⟨h2, by omega⟩)]
          exact h
      · by_cases h3 : key = env.CTRL_S
        · rw [h3, handle_key_save env context st he]
          exact h
        · rw [handle_key_browse_other env context st key he h1 h2 h3, move_focus_same]
          exact h
  · obtain ⟨st1, hs, hc, h1, h2, h3, h4⟩ := handle_key_edit_cases env context st key he
    rw [hs]
    exact ⟨hc.trans_le h.1, h2.trans h.2.1, (h1.trans h.2.2.1).trans (congrArg some hc.symm),
      (h3.trans h.2.2.2.1).trans (congrArg (fun c => SETTINGS_LIST_ROW + c) hc.symm),
      h4.trans h.2.2.2.2⟩

theorem loop_inv (env : Env σ β) (context : Nat) (keys : List Int)
    (hN : 1 ≤ env.config_settings.length) :
    ∀ st : LoopState σ β,
      (st.current ≤ env.config_settings.length - 1 ∧ st.widget.context = context ∧
        st.widget.setting = some st.current ∧
        st.widget.row = SETTINGS_LIST_ROW + st.current ∧ st.widget.col = SETTINGS_LIST_COL) →
      (loop env context st keys).state.current ≤ env.config_settings.length - 1 ∧
      (loop env context st keys).state.widget.context = context ∧
      (loop env context st keys).state.widget.setting =
        some (loop env context st keys).state.current ∧
      (loop env context st keys).state.widget.row =
        SETTINGS_LIST_ROW + (loop env context st keys).state.current ∧
      (loop env context st keys).state.widget.col = SETTINGS_LIST_COL := by
  induction keys with
  | nil => intro st h; exact h
  | cons key keys ih =>
    intro st h
    have hk := handle_key_inv env context
      { world := (redraw env st).world.emit (Event.getkey key), widget := st.widget,
        current := st.current } key hN h
    rw [← iteration_eq] at hk
    simp only [loop]
    cases hi : iteration env context st key with
    | next st1 =>
      rw [hi] at hk
      exact ih st1 hk
    | ret rc st1 =>
      rw [hi] at hk
      exact hk

/-- C1: for a table of `N >= 1` settings and every finite sequence of keys
fed to `main_loop`, the focus index of the state reached is at most `N - 1`
(it is an `unsigned`, so at least 0), every iteration of the loop keeps it
so, and in Browse mode KEY_DOWN at index `N - 1` and KEY_UP at index 0
leave the index where it is: there is no wrap-around. -/
theorem focus_in_bounds (env : Env σ β) (context : Nat) (w : World σ β)
    (widget : setting_widget β) (keys : List Int) (st : LoopState σ β)
    (hN : 1 ≤ env.config_settings.length) (he : st.widget.editing = 0) :
    (main_init env context w widget).current = 0 ∧
    (main_loop env context w widget keys).state.current ≤ env.config_settings.length - 1 ∧
    (∀ (s : LoopState σ β) (k : Int), s.current ≤ env.config_settings.length - 1 →
      (iteration env context s k).state.current ≤ env.config_settings.length - 1) ∧
    (handle_key env context { st with current := env.config_settings.length - 1 }
      env.KEY_DOWN).state.current = env.config_settings.length - 1 ∧
    (handle_key env context { st with current := 0 } env.KEY_UP).state.current = 0 := by
  refine ⟨rfl, ?_, ?_, ?_, ?_⟩
  · exact loop_current_le env context keys hN (main_init env context w widget)
      (Nat.zero_le _)
  · intro s k hs
    rw [iteration_eq]
    exact handle_key_current_le env context _ k hN hs
  · rw [handle_key_at_boundary env context
      { st with current := env.config_settings.length - 1 } env.KEY_DOWN hN he
      (Or.inl ⟨rfl, rfl⟩)]
    rfl
  · rw [handle_key_at_boundary env context { st with current := 0 } env.KEY_UP hN he
      (Or.inr ⟨rfl, rfl⟩)]
    rfl

/-- The demo session: down three times, then up, over three settings. -/
theorem focus_in_bounds_witness :
    1 ≤ demo_env.config_settings.length ∧ demo_state.widget.editing = 0 ∧
    (main_loop demo_env 7 demo_world demo_widget [322, 322, 322, 321]).state.current ≤
      demo_env.config_settings.length - 1 :=
  ⟨by decide, by decide,
   (focus_in_bounds demo_env 7 demo_world demo_widget [322, 322, 322, 321] demo_state
      (by decide) (by decide)).2.1⟩

/-- C17: for a table of at least one setting, in every state that
`main_loop` reaches the widget is bound to the focused setting at its screen
position: `widget.setting` points to `config_settings[current]`, `widget.row`
is `SETTINGS_LIST_ROW + current`, `widget.col` is `SETTINGS_LIST_COL` and
`widget.context` is the context of the session; every iteration of the loop,
in Browse or Edit mode and on any key, keeps this. -/
theorem binding_invariant (env : Env σ β) (context : Nat) (w : World σ β)
    (widget : setting_widget β) (keys : List Int) (hN : 1 ≤ env.config_settings.length) :
    ((main_loop env context w widget keys).state.widget.context = context ∧
      (main_loop env context w widget keys).state.widget.setting =
        some (main_loop env context w widget keys).state.current ∧
      (main_loop env context w widget keys).state.widget.row =
        SETTINGS_LIST_ROW + (main_loop env context w widget keys).state.current ∧
      (main_loop env context w widget keys).state.widget.col = SETTINGS_LIST_COL) ∧
    SETTINGS_LIST_ROW = 3 ∧ SETTINGS_LIST_COL = 1 ∧
    (∀ (s : LoopState σ β) (k : Int),
      (s.current ≤ env.config_settings.length - 1 ∧ s.widget.context = context ∧
        s.widget.setting = some s.current ∧
        s.widget.row = SETTINGS_LIST_ROW + s.current ∧ s.widget.col = SETTINGS_LIST_COL) →
      (iteration env context s k).state.current ≤ env.config_settings.length - 1 ∧
      (iteration env context s k).state.widget.context = context ∧
      (iteration env context s k).state.widget.setting =
        some (iteration env context s k).state.current ∧
      (iteration env context s k).state.widget.row =
        SETTINGS_LIST_ROW + (iteration env context s k).state.current ∧
      (iteration env context s k).state.widget.col = SETTINGS_LIST_COL) := by
  refine ⟨?_, rfl, rfl, ?_⟩
  · have h0 : (main_init env context w widget).current ≤ env.config_settings.length - 1 ∧
        (main_init env context w widget).widget.context = context ∧
        (main_init env context w widget).widget.setting =
          some (main_init env context w widget).current ∧
        (main_init env context w widget).widget.row =
          SETTINGS_LIST_ROW + (main_init env context w widget).current ∧
        (main_init env context w widget).widget.col = SETTINGS_LIST_COL := by
      have hfit := env.table_fits
      obtain ⟨-, -, -, h4, -⟩ := draw_all_trace env context w (draw_all_count env)
        (color_set (draw_title_row env w) CPAIR_NORMAL, widget)
        (by rw [draw_all_count_eq env hN]; omega) rfl
      have h5 := h4 (by rw [draw_all_count_eq env hN]; exact hN)
      have f := init_setting_index_frame env w context 0
      rw [main_init_eq]
      exact ⟨Nat.zero_le _, (congrArg setting_widget.context h5).trans f.1,
        (congrArg setting_widget.setting h5).trans f.2.1,
        (congrArg setting_widget.row h5).trans f.2.2.1,
        (congrArg setting_widget.col h5).trans f.2.2.2.1⟩
    exact (loop_inv env context keys hN (main_init env context w widget) h0).2
  · intro s k hs
    rw [iteration_eq]
    exact handle_key_inv env context _ k hN hs

/-- The demo session: `9` typed on the second setting, then CR. -/
theorem binding_invariant_witness :
    1 ≤ demo_env.config_settings.length ∧
    (main_loop demo_env 7 demo_world demo_widget [322, 57, 13]).state.widget.setting =
      some (main_loop demo_env 7 demo_world demo_widget [322, 57, 13]).state.current :=
  ⟨by decide,
   (binding_invariant demo_env 7 demo_world demo_widget [322, 57, 13] (by decide)).1.2.1⟩

/-! ## The empty table -/

/-- C19: for an empty settings table `NUM_SETTINGS - 1` is `2 ^ 32 - 1` in
`unsigned` arithmetic.  The initial loop of `main_loop` then runs zero times:
after the title and the colour pair no call is made and the widget is the
uninitialised local.  In Browse mode KEY_DOWN at a focus index
`c < 2 ^ 32 - 1` moves the focus to `c + 1`: the index is not clamped. -/
theorem empty_table_not_clamped (env : Env σ β) (context : Nat) (w : World σ β)
    (widget : setting_widget β) (st : LoopState σ β)
    (hN : env.config_settings.length = 0) (he : st.widget.editing = 0)
    (hc : st.current < 4294967295) :
    NUM_SETTINGS env = 0 ∧
    usub (NUM_SETTINGS env) 1 = 4294967295 ∧
    draw_all_count env = 0 ∧
    (main_init env context w widget).widget = widget ∧
    (main_init env context w widget).world = color_set (draw_title_row env w) CPAIR_NORMAL ∧
    ∃ st1 : LoopState σ β,
      handle_key env context st env.KEY_DOWN = Step.next st1 ∧
      st1.current = st.current + 1 ∧
      st1.widget.setting = some (st.current + 1) := by
  have h0 : NUM_SETTINGS env = 0 := by
    unfold NUM_SETTINGS
    rw [hN]
    rfl
  have h1 : usub (NUM_SETTINGS env) 1 = 4294967295 := by
    rw [h0]
    decide
  have h2 : draw_all_count env = 0 := by
    unfold draw_all_count
    rw [h1]
    decide
  refine ⟨h0, h1, h2, ?_, ?_, ?_⟩
  · rw [main_init_eq, h2]
    rfl
  · rw [main_init_eq, h2]
    rfl
  · have h3 : (st.current + 1) % U32 = st.current + 1 := by
      unfold U32
      omega
    rw [handle_key_down env context st he, h1, if_pos hc, h3,
      move_focus_ne env context st (st.current + 1) (by omega)]
    exact ⟨_, rfl, rfl, (init_setting_index_frame env _ context (st.current + 1)).2.1⟩

/-- The demo environment with no settings, the focus index at 0. -/
theorem empty_table_not_clamped_witness :
    demo_env_empty.config_settings.length = 0 ∧ demo_state.widget.editing = 0 ∧
    demo_state.current < 4294967295 ∧
    ∃ st1 : LoopState (List (List Char)) Nat,
      handle_key demo_env_empty 7 demo_state demo_env_empty.KEY_DOWN = Step.next st1 ∧
      st1.current = demo_state.current + 1 :=
  ⟨by decide, by decide, by decide,
   (empty_table_not_clamped demo_env_empty 7 demo_world demo_widget demo_state (by decide)
      (by decide) (by decide)).2.2.2.2.2.imp (fun _ h => ⟨h.1, h.2.1⟩)⟩

/-! ## Centring of messages -/

/-- C14 does not hold of the code for a message longer than the screen is
wide.  `vmsg` prints at most `COLS - 1` characters at the column
`( COLS - len ) / 2` computed in `size_t` arithmetic from the untruncated
length `len`.  When `len <= COLS` and the screen has at least one column the
text is centred: the column is below `COLS`, the text fits the row, and the
right margin is the left margin or one more.  When `len > COLS` the
subtraction wraps: on a screen of 80 columns a message of 81 characters is
printed at column `2147483647`. -/
theorem vmsg_centring (env : Env σ β) (w : World σ β) (row : Nat) (text : List Char) :
    (vmsg env w row text).trace =
      w.trace ++ [Event.mvprintw w.colour row
        (usub (env.COLS % U32) (text.length % U32) / 2) (text.take (env.COLS - 1))] ∧
    (text.length ≤ env.COLS → 0 < env.COLS → env.COLS < U32 →
      usub (env.COLS % U32) (text.length % U32) / 2 = (env.COLS - text.length) / 2 ∧
      (env.COLS - text.length) / 2 < env.COLS ∧
      (env.COLS - text.length) / 2 + (text.take (env.COLS - 1)).length ≤ env.COLS ∧
      (env.COLS - text.length) / 2 ≤
        env.COLS - ((env.COLS - text.length) / 2 + (text.take (env.COLS - 1)).length) ∧
      env.COLS - ((env.COLS - text.length) / 2 + (text.take (env.COLS - 1)).length) ≤
        (env.COLS - text.length) / 2 + 1) ∧
    (vmsg demo_env demo_world TITLE_ROW (List.replicate 81 'x')).trace =
      [Event.mvprintw CPAIR_NORMAL TITLE_ROW 2147483647 (List.replicate 79 'x')] ∧
    ¬ (2147483647 < demo_env.COLS) := by
  refine ⟨rfl, ?_, by decide, by decide⟩
  intro h1 h2 h3
  have hl : (text.take (env.COLS - 1)).length = min (env.COLS - 1) text.length :=
    List.length_take _ _
  rw [hl]
  unfold usub U32 at *
  omega

end SettingsUI
